import Mathlib

/-!
# Measurement engine of the speed-test backend

Shallow embedding of `internal/services/speedtest_service.go`.

Modelling conventions
* `float64` values are modelled by exact rationals `ℚ`; Go `int` values by `Nat`/`Int`.
  Where a claim depends on rounding (the synthetic values), the float64 result of the same
  expression is given by `roundFloat64`.
* A Go `error` is modelled by its message (`GoError`), `nil` by `none`.
* Multi-value returns `(v, err)` are modelled by tuples ending in `Option GoError`.
* The network is an explicit oracle argument: each function receives the outcome of
  every network call it may issue, and every elapsed time it measures.
* Rational division by zero yields 0 where `float64` division yields an infinity or NaN,
  so statements about the value of a rate assume a positive elapsed time.
* The goroutines of a multi-connection estimator are modelled by their critical sections,
  executed under an arbitrary schedule.
* A run-time panic (index out of range) is modelled by the result `none`.
-/

namespace SpeedTest

/-- A Go `error`, represented by its message. -/
abbrev GoError := String

/-! ## Latency estimator -/

/-- Outcome of one timed probe to `host` on attempt `i`: `none` when the call returned an
error, `some ms` with `ms = elapsed.Milliseconds()` when it succeeded. -/
abbrev ProbeNet := String → Nat → Option Int

/-- The sample collection loop shared textually by both latency strategies:
`for _, host := range hosts { for i := 0; i < 5; i++ { ... append ... } }`. -/
def collectPingTimes (probe : ProbeNet) (hosts : List String) : List ℚ :=
  hosts.foldl (fun pingTimes host =>
    (List.range 5).foldl (fun pingTimes i =>
      match probe host i with
      | none => pingTimes
      | some ms => pingTimes ++ [(ms : ℚ)]) pingTimes) []

/-- Embedding of `measurePingAndJitter`; `dial host i` is the outcome of the `i`-th
`net.DialTimeout("tcp", host+":80", 2*time.Second)`. -/
def measurePingAndJitter (dial : ProbeNet) : ℚ × ℚ × Option GoError :=
  let hosts := ["8.8.8.8", "1.1.1.1", "208.67.222.222"]
  let pingTimes := collectPingTimes dial hosts
  if pingTimes.length < 3 then
    (0, 0, some "not enough successful pings")
  else
    let sum := pingTimes.foldl (fun sum p => sum + p) 0
    let avgPing := sum / (pingTimes.length : ℚ)
    let variance := pingTimes.foldl (fun variance p => variance + (p - avgPing) * (p - avgPing)) 0
    let jitter :=
      if pingTimes.length > 1 then variance / (((pingTimes.length : Int) - 1 : Int) : ℚ) else 0
    (avgPing, jitter, none)

/-- Embedding of `measureAlternativePing`; `head host i` is the outcome of the `i`-th
`http.Head("https://" + host)`. -/
def measureAlternativePing (head : ProbeNet) : ℚ × ℚ × Option GoError :=
  let hosts := ["8.8.8.8", "1.1.1.1"]
  let pingTimes := collectPingTimes head hosts
  if pingTimes.length < 3 then
    (0, 0, some "not enough successful pings")
  else
    let sum := pingTimes.foldl (fun sum p => sum + p) 0
    let avgPing := sum / (pingTimes.length : ℚ)
    let variance := pingTimes.foldl (fun variance p => variance + (p - avgPing) * (p - avgPing)) 0
    let jitter :=
      if pingTimes.length > 1 then variance / (((pingTimes.length : Int) - 1 : Int) : ℚ) else 0
    (avgPing, jitter, none)

/-! ### Reference notions used to state the latency claims -/

/-- The probe set of the primary strategy. -/
def primaryHosts : List String := ["8.8.8.8", "1.1.1.1", "208.67.222.222"]

/-- The probe set of the secondary strategy. -/
def secondaryHosts : List String := ["8.8.8.8", "1.1.1.1"]

/-- The successful samples of a probe run, in probe order. -/
def samplesOf (probe : ProbeNet) (hosts : List String) : List ℚ :=
  hosts.flatMap (fun host =>
    (List.range 5).filterMap (fun i => Option.map (fun ms : Int => (ms : ℚ)) (probe host i)))

/-- Number of probes of the whole probe set that succeeded. -/
def successfulProbes (probe : ProbeNet) (hosts : List String) : Nat :=
  (hosts.map (fun host => (List.range 5).countP (fun i => (probe host i).isSome))).sum

/-- Arithmetic mean. -/
def mean (xs : List ℚ) : ℚ := xs.sum / (xs.length : ℚ)

/-- Sample variance: sum of squared deviations from the mean over `n - 1`, and `0` when
`n` is not greater than `1`. -/
def sampleVariance (xs : List ℚ) : ℚ :=
  if 1 < xs.length then (xs.map (fun x => (x - mean xs) ^ 2)).sum / ((xs.length : ℚ) - 1) else 0

/-- Probe oracle of the scenario: five successful probes with 10, 12, 11, 13, 14 ms, all
other probes failing. -/
def scenarioDial : ProbeNet := fun host i =>
  if host = "8.8.8.8" then
    match i with
    | 0 => some 10
    | 1 => some 12
    | _ => none
  else if host = "1.1.1.1" then
    match i with
    | 0 => some 11
    | 3 => some 13
    | _ => none
  else if host = "208.67.222.222" then
    match i with
    | 4 => some 14
    | _ => none
  else none

/-- Probe oracle under which every probe succeeds after 20 ms. -/
def steadyProbe : ProbeNet := fun _ _ => some 20

/-! ## Throughput estimators -/

/-- Outcome of one HTTP GET as seen by the download code. `getFailed err`: `client.Get`
returned `err`. `response reads readErr`: the request succeeded and the successive
`resp.Body.Read(buf)` calls returned the byte counts `reads`, the last call being the one
that returned a non-nil error, `io.EOF` when `readErr = none` and `readErr` otherwise. -/
inductive Download where
  | getFailed (err : GoError)
  | response (reads : List Nat) (readErr : Option GoError)
  deriving DecidableEq

/-- Outcome of one HTTP POST as seen by the upload code: `http.NewRequest` failed,
`client.Do` failed, or the response was received. -/
inductive Upload where
  | newRequestFailed (err : GoError)
  | doFailed (err : GoError)
  | done
  deriving DecidableEq

/-- Embedding of `measureDownloadSpeed`: `get` is the outcome of the GET of the 25 MB
payload, `elapsedSeconds` the value of `time.Since(start).Seconds()`. -/
def measureDownloadSpeed (get : Download) (elapsedSeconds : ℚ) : ℚ × Option GoError :=
  match get with
  | .getFailed err => (0, some err)
  | .response reads readErr =>
    let totalBytes : Nat := reads.foldl (fun totalBytes n => totalBytes + n) 0
    match readErr with
    | some err => (0, some err)
    | none =>
      let speedMbps := ((totalBytes : ℚ) * 8 / 1000000) / elapsedSeconds
      (speedMbps, none)

/-- The variables shared by the workers of a multi-connection estimator (guarded by `mu`). -/
structure Shared where
  totalBytes : Nat
  errors : List GoError
  deriving DecidableEq

/-- One critical section executed under `mu`. -/
inductive Action where
  | addBytes (n : Nat)
  | appendError (err : GoError)
  deriving DecidableEq

/-- Effect of one critical section on the shared variables. -/
def Shared.apply (st : Shared) : Action → Shared
  | .addBytes n => { st with totalBytes := st.totalBytes + n }
  | .appendError err => { st with errors := st.errors ++ [err] }

/-- Execution of the goroutines up to `wg.Wait()`: `sched` names, step by step, the worker
whose next critical section runs; once the schedule is used up the remaining critical
sections run worker by worker, so that every worker has terminated at the join point. -/
def runWorkers : List Nat → List (List Action) → Shared → Shared
  | [], workers, st => workers.foldl (fun st w => w.foldl Shared.apply st) st
  | i :: sched, workers, st =>
    match workers.get? i with
    | some (a :: rest) => runWorkers sched (workers.set i rest) (st.apply a)
    | _ => runWorkers sched workers st

/-- Critical sections of one download goroutine, in program order. -/
def downloadWorker : Download → List Action
  | .getFailed err => [.appendError err]
  | .response reads readErr =>
    (reads.filter (fun n => n > 0)).map Action.addBytes ++
      (match readErr with
        | some err => [.appendError err]
        | none => [])

/-- Shared variables of `measureMultiConnectionDownloadSpeed` after `wg.Wait()`. -/
def multiDownloadJoin (get : Nat → Download) (sched : List Nat) : Shared :=
  let numConnections := 4
  runWorkers sched ((List.range numConnections).map (fun connID => downloadWorker (get connID)))
    { totalBytes := 0, errors := [] }

/-- Embedding of `measureMultiConnectionDownloadSpeed`: `get connID` is the outcome of the
GET issued by worker `connID`, `sched` the interleaving of the critical sections. -/
def measureMultiConnectionDownloadSpeed (get : Nat → Download) (sched : List Nat)
    (elapsedSeconds : ℚ) : ℚ × Option GoError :=
  let numConnections := 4
  let st := multiDownloadJoin get sched
  if st.errors.length = numConnections then
    (0, some "all download connections failed")
  else
    let speedMbps := ((st.totalBytes : ℚ) * 8 / 1000000) / elapsedSeconds
    (speedMbps, none)

/-- Model of `sort.Float64s` on exact values: the ascending rearrangement. -/
def sortFloat64s (speeds : List ℚ) : List ℚ := speeds.insertionSort (fun a b => a ≤ b)

/-- The tail shared textually by both fallback estimators, after the sources have been
tried: the empty-list check, `sort.Float64s(speeds)`, `speeds[len(speeds)/2] * 1.5`.
The result is `none` when the index expression panics. -/
def medianScaled (speeds : List ℚ) (failure : GoError) : Option (ℚ × Option GoError) :=
  if speeds.length = 0 then
    some (0, some failure)
  else
    match (sortFloat64s speeds).get? (speeds.length / 2) with
    | none => none
    | some medianSpeed => some (medianSpeed * (3 / 2), none)

/-- The URLs tried by `measureAlternativeDownloadSpeed`, in order. -/
def alternativeDownloadUrls : List String :=
  [ "https://www.google.com/images/branding/googlelogo/1x/googlelogo_color_272x92dp.png",
    "https://www.microsoft.com/favicon.ico",
    "https://speed.cloudflare.com/__down?bytes=1000000" ]

/-- The loop of `measureAlternativeDownloadSpeed`: `get url` is the outcome of
`http.Get(url)` together with the seconds elapsed for that source. -/
def alternativeDownloadSpeeds (get : String → Download × ℚ) : List ℚ :=
  alternativeDownloadUrls.foldl (fun speeds url =>
    match get url with
    | (.getFailed _, _) => speeds
    | (.response reads _, elapsedSeconds) =>
      let totalBytes : Nat := reads.foldl (fun totalBytes n => totalBytes + n) 0
      if totalBytes > 0 ∧ elapsedSeconds > 0 then
        speeds ++ [((totalBytes : ℚ) * 8 / 1000000) / elapsedSeconds]
      else speeds) []

/-- Embedding of `measureAlternativeDownloadSpeed`; `none` stands for a run-time panic. -/
def measureAlternativeDownloadSpeed (get : String → Download × ℚ) :
    Option (ℚ × Option GoError) :=
  medianScaled (alternativeDownloadSpeeds get) "all alternative download tests failed"

/-- Embedding of `measureUploadSpeed`: `post` is the outcome of the POST of the payload. -/
def measureUploadSpeed (post : Upload) (elapsedSeconds : ℚ) : ℚ × Option GoError :=
  let payloadSize : Nat := 5 * 1024 * 1024
  match post with
  | .newRequestFailed err => (0, some err)
  | .doFailed err => (0, some err)
  | .done =>
    let speedMbps := ((payloadSize : ℚ) * 8 / 1000000) / elapsedSeconds
    (speedMbps, none)

/-- Critical sections of one upload goroutine, in program order. -/
def uploadWorker (payloadSize : Nat) : Upload → List Action
  | .newRequestFailed err => [.appendError err]
  | .doFailed err => [.appendError err]
  | .done => [.addBytes payloadSize]

/-- Shared variables of `measureMultiConnectionUploadSpeed` after `wg.Wait()`. -/
def multiUploadJoin (post : Nat → Upload) (sched : List Nat) : Shared :=
  let numConnections := 4
  let payloadSize := 2 * 1024 * 1024
  runWorkers sched
    ((List.range numConnections).map (fun connID => uploadWorker payloadSize (post connID)))
    { totalBytes := 0, errors := [] }

/-- Embedding of `measureMultiConnectionUploadSpeed`. -/
def measureMultiConnectionUploadSpeed (post : Nat → Upload) (sched : List Nat)
    (elapsedSeconds : ℚ) : ℚ × Option GoError :=
  let numConnections := 4
  let st := multiUploadJoin post sched
  if st.errors.length = numConnections then
    (0, some "all upload connections failed")
  else
    let speedMbps := ((st.totalBytes : ℚ) * 8 / 1000000) / elapsedSeconds
    (speedMbps, none)

/-- The URLs tried by `measureAlternativeUploadSpeed`, in order. -/
def alternativeUploadUrls : List String :=
  ["https://httpbin.org/post", "https://postman-echo.com/post"]

/-- The loop of `measureAlternativeUploadSpeed`: `post url` is the outcome of the POST to
`url` together with the seconds elapsed for that source. -/
def alternativeUploadSpeeds (post : String → Upload × ℚ) : List ℚ :=
  alternativeUploadUrls.foldl (fun speeds url =>
    let payloadSize : Nat := 1 * 1024 * 1024
    match post url with
    | (.newRequestFailed _, _) => speeds
    | (.doFailed _, _) => speeds
    | (.done, elapsedSeconds) =>
      if elapsedSeconds > 0 then
        speeds ++ [((payloadSize : ℚ) * 8 / 1000000) / elapsedSeconds]
      else speeds) []

/-- Embedding of `measureAlternativeUploadSpeed`; `none` stands for a run-time panic. -/
def measureAlternativeUploadSpeed (post : String → Upload × ℚ) :
    Option (ℚ × Option GoError) :=
  medianScaled (alternativeUploadSpeeds post) "all alternative upload tests failed"

/-! ### Reference notions used to state the throughput claims -/

/-- A download worker failed when its GET failed or its body read ended with an error
other than `io.EOF`. -/
def Download.failed : Download → Bool
  | .getFailed _ => true
  | .response _ readErr => readErr.isSome

/-- Bytes a download worker read before it terminated. -/
def Download.bytesRead : Download → Nat
  | .getFailed _ => 0
  | .response reads _ => reads.sum

/-- An upload worker failed when it did not obtain a response. -/
def Upload.failed : Upload → Bool
  | .done => false
  | _ => true

/-- The rate formula `bytes * 8 / 1,000,000 / seconds`. -/
def mbps (bytes : Nat) (seconds : ℚ) : ℚ := (bytes : ℚ) * 8 / 1000000 / seconds

/-- Number of `appendError` sections in a worker program. -/
def errorsIn : List Action → Nat
  | [] => 0
  | .appendError _ :: as => errorsIn as + 1
  | .addBytes _ :: as => errorsIn as

/-- Bytes added by a worker program. -/
def bytesIn : List Action → Nat
  | [] => 0
  | .appendError _ :: as => bytesIn as
  | .addBytes n :: as => bytesIn as + n

/-- Bytes read by the workers that did not fail. -/
def succeededBytes (get : Nat → Download) : Nat :=
  ((List.range 4).map (fun connID =>
    if (get connID).failed then 0 else (get connID).bytesRead)).sum

/-- Worker outcomes where worker 0 reads 1000 bytes up to `io.EOF`, worker 1 reads 500
bytes and then hits a read error, and the GETs of workers 2 and 3 fail. -/
def mixedGet : Nat → Download
  | 0 => .response [1000, 0] none
  | 1 => .response [500, 0] (some "unexpected EOF")
  | _ => .getFailed "context deadline exceeded"

/-- Worker outcomes where worker 0 receives an empty body and the other GETs fail. -/
def emptyBodyGet : Nat → Download
  | 0 => .response [0] none
  | _ => .getFailed "context deadline exceeded"

/-- Worker outcomes of the multi-connection scenario: 3,000,000, 2,500,000 and 3,200,000
bytes read in 16 KiB chunks by workers 0, 1 and 3, worker 2 failing at the GET. -/
def scenarioGet : Nat → Download
  | 0 => .response (List.replicate 183 16384 ++ [1728, 0]) none
  | 1 => .response (List.replicate 152 16384 ++ [9632, 0]) none
  | 3 => .response (List.replicate 195 16384 ++ [5120, 0]) none
  | _ => .getFailed "context deadline exceeded"

/-- The rate a fallback download source contributes, if any: the request must succeed and
a positive number of bytes must be read in a positive elapsed time. -/
def downloadSourceRate : Download × ℚ → Option ℚ
  | (.getFailed _, _) => none
  | (.response reads _, seconds) =>
    if reads.sum > 0 ∧ seconds > 0 then some (mbps reads.sum seconds) else none

/-- The rate a fallback upload source contributes, if any. -/
def uploadSourceRate : Upload × ℚ → Option ℚ
  | (.done, seconds) => if seconds > 0 then some (mbps 1048576 seconds) else none
  | _ => none

/-- Fallback download sources of the scenario: 6250 bytes in 10 ms from the first source
(5 Mbps), a failed request to the second, 1,000,000 bytes in 1 s from the third (8 Mbps). -/
def scenarioAltGet : String → Download × ℚ := fun url =>
  if url = "https://www.microsoft.com/favicon.ico" then
    (.getFailed "context deadline exceeded", 0)
  else if url = "https://speed.cloudflare.com/__down?bytes=1000000" then
    (.response (List.replicate 122 8192 ++ [576, 0]) none, 1)
  else
    (.response [6250, 0] none, 1 / 100)

/-- Upload workers that all obtain a response. -/
def allDonePost : Nat → Upload := fun _ => .done

/-- Fallback upload sources that each answer after 1 s. -/
def steadyAltPost : String → Upload × ℚ := fun _ => (.done, 1)

/-- Fallback download sources where the first request succeeds with an empty body and the
other two requests fail. -/
def emptyAltGet : String → Download × ℚ := fun url =>
  if url = "https://www.google.com/images/branding/googlelogo/1x/googlelogo_color_272x92dp.png"
  then (.response [0] none, 1 / 10)
  else (.getFailed "context deadline exceeded", 0)

/-! ## Orchestrator -/

/-- A value of `rand.Float64()`: a number in the half-open interval `[0.0, 1.0)`. -/
structure UnitFloat where
  val : ℚ
  nonneg : 0 ≤ val
  lt_one : val < 1

/-- The draws `performSpeedTest` may take from the random source: `rand.Intn(10)`,
`rand.Intn(5)` and two `rand.Float64()`. -/
structure Random where
  pingIntn : Fin 10
  jitterIntn : Fin 5
  downloadFloat : UnitFloat
  uploadFloat : UnitFloat

/-- Outcomes of all the network activity one run of `performSpeedTest` may trigger. -/
structure Network where
  dial : ProbeNet
  headProbe : ProbeNet
  download : Download
  downloadSeconds : ℚ
  multiDownload : Nat → Download
  multiDownloadSched : List Nat
  multiDownloadSeconds : ℚ
  altDownload : String → Download × ℚ
  upload : Upload
  uploadSeconds : ℚ
  multiUpload : Nat → Upload
  multiUploadSched : List Nat
  multiUploadSeconds : ℚ
  altUpload : String → Upload × ℚ

/-- Embedding of `performSpeedTest`, returning
`(downloadSpeed, uploadSpeed, ping, jitter, err)`; `none` stands for a run-time panic. -/
def performSpeedTest (net : Network) (rnd : Random) (isMultiConnection : Bool) :
    Option (ℚ × ℚ × ℚ × ℚ × Option GoError) :=
  let (ping, jitter) :=
    match measurePingAndJitter net.dial with
    | (ping, jitter, none) => (ping, jitter)
    | (_, _, some _) =>
      match measureAlternativePing net.headProbe with
      | (ping, jitter, none) => (ping, jitter)
      | (_, _, some _) =>
        (((15 + rnd.pingIntn.val : Nat) : ℚ), ((2 + rnd.jitterIntn.val : Nat) : ℚ))
  let primaryDownload :=
    if isMultiConnection then
      measureMultiConnectionDownloadSpeed net.multiDownload net.multiDownloadSched
        net.multiDownloadSeconds
    else
      measureDownloadSpeed net.download net.downloadSeconds
  let downloadResult : Option ℚ :=
    match primaryDownload with
    | (downloadSpeed, none) => some downloadSpeed
    | (_, some _) =>
      match measureAlternativeDownloadSpeed net.altDownload with
      | none => none
      | some (downloadSpeed, none) => some downloadSpeed
      | some (_, some _) => some (80 + rnd.downloadFloat.val * 40)
  match downloadResult with
  | none => none
  | some downloadSpeed =>
    let primaryUpload :=
      if isMultiConnection then
        measureMultiConnectionUploadSpeed net.multiUpload net.multiUploadSched
          net.multiUploadSeconds
      else
        measureUploadSpeed net.upload net.uploadSeconds
    let uploadResult : Option ℚ :=
      match primaryUpload with
      | (uploadSpeed, none) => some uploadSpeed
      | (_, some _) =>
        match measureAlternativeUploadSpeed net.altUpload with
        | none => none
        | some (uploadSpeed, none) => some uploadSpeed
        | some (_, some _) => some (5 + rnd.uploadFloat.val * 15)
    match uploadResult with
    | none => none
    | some uploadSpeed => some (downloadSpeed, uploadSpeed, ping, jitter, none)

/-- The estimator invocations and synthetic substitutions `performSpeedTest` can perform. -/
inductive Call where
  | measurePingAndJitter
  | measureAlternativePing
  | syntheticLatency
  | measureDownloadSpeed
  | measureMultiConnectionDownloadSpeed
  | measureAlternativeDownloadSpeed
  | syntheticDownload
  | measureUploadSpeed
  | measureMultiConnectionUploadSpeed
  | measureAlternativeUploadSpeed
  | syntheticUpload
  deriving DecidableEq

/-- Embedding of `performSpeedTest` that also records, in program order, every estimator
it invokes and every synthetic substitution it makes. -/
def performSpeedTestLogged (net : Network) (rnd : Random) (isMultiConnection : Bool) :
    List Call × Option (ℚ × ℚ × ℚ × ℚ × Option GoError) :=
  let log : List Call := [Call.measurePingAndJitter]
  let (ping, jitter, log) : ℚ × ℚ × List Call :=
    match measurePingAndJitter net.dial with
    | (ping, jitter, none) => (ping, jitter, log)
    | (_, _, some _) =>
      let log := log ++ [Call.measureAlternativePing]
      match measureAlternativePing net.headProbe with
      | (ping, jitter, none) => (ping, jitter, log)
      | (_, _, some _) =>
        (((15 + rnd.pingIntn.val : Nat) : ℚ), ((2 + rnd.jitterIntn.val : Nat) : ℚ),
          log ++ [Call.syntheticLatency])
  let (primaryDownload, log) : (ℚ × Option GoError) × List Call :=
    if isMultiConnection then
      (measureMultiConnectionDownloadSpeed net.multiDownload net.multiDownloadSched
        net.multiDownloadSeconds, log ++ [Call.measureMultiConnectionDownloadSpeed])
    else
      (measureDownloadSpeed net.download net.downloadSeconds, log ++ [Call.measureDownloadSpeed])
  let (downloadResult, log) : Option ℚ × List Call :=
    match primaryDownload with
    | (downloadSpeed, none) => (some downloadSpeed, log)
    | (_, some _) =>
      let log := log ++ [Call.measureAlternativeDownloadSpeed]
      match measureAlternativeDownloadSpeed net.altDownload with
      | none => (none, log)
      | some (downloadSpeed, none) => (some downloadSpeed, log)
      | some (_, some _) => (some (80 + rnd.downloadFloat.val * 40), log ++ [Call.syntheticDownload])
  match downloadResult with
  | none => (log, none)
  | some downloadSpeed =>
    let (primaryUpload, log) : (ℚ × Option GoError) × List Call :=
      if isMultiConnection then
        (measureMultiConnectionUploadSpeed net.multiUpload net.multiUploadSched
          net.multiUploadSeconds, log ++ [Call.measureMultiConnectionUploadSpeed])
      else
        (measureUploadSpeed net.upload net.uploadSeconds, log ++ [Call.measureUploadSpeed])
    let (uploadResult, log) : Option ℚ × List Call :=
      match primaryUpload with
      | (uploadSpeed, none) => (some uploadSpeed, log)
      | (_, some _) =>
        let log := log ++ [Call.measureAlternativeUploadSpeed]
        match measureAlternativeUploadSpeed net.altUpload with
        | none => (none, log)
        | some (uploadSpeed, none) => (some uploadSpeed, log)
        | some (_, some _) => (some (5 + rnd.uploadFloat.val * 15), log ++ [Call.syntheticUpload])
    match uploadResult with
    | none => (log, none)
    | some uploadSpeed => (log, some (downloadSpeed, uploadSpeed, ping, jitter, none))

/-- Result of the primary download variant selected by the connection-mode flag. -/
def selectedDownload (net : Network) (isMultiConnection : Bool) : ℚ × Option GoError :=
  if isMultiConnection then
    measureMultiConnectionDownloadSpeed net.multiDownload net.multiDownloadSched
      net.multiDownloadSeconds
  else measureDownloadSpeed net.download net.downloadSeconds

/-- Result of the primary upload variant selected by the connection-mode flag. -/
def selectedUpload (net : Network) (isMultiConnection : Bool) : ℚ × Option GoError :=
  if isMultiConnection then
    measureMultiConnectionUploadSpeed net.multiUpload net.multiUploadSched
      net.multiUploadSeconds
  else measureUploadSpeed net.upload net.uploadSeconds

/-- A network on which every probe and every transfer fails. -/
def deadNetwork : Network where
  dial := fun _ _ => none
  headProbe := fun _ _ => none
  download := .getFailed "dial tcp: i/o timeout"
  downloadSeconds := 30
  multiDownload := fun _ => .getFailed "dial tcp: i/o timeout"
  multiDownloadSched := []
  multiDownloadSeconds := 20
  altDownload := fun _ => (.getFailed "dial tcp: i/o timeout", 0)
  upload := .doFailed "dial tcp: i/o timeout"
  uploadSeconds := 30
  multiUpload := fun _ => .doFailed "dial tcp: i/o timeout"
  multiUploadSched := []
  multiUploadSeconds := 20
  altUpload := fun _ => (.doFailed "dial tcp: i/o timeout", 0)

/-- Random draws 3, 1, 1/4 and 1/2. -/
def sampleRandom : Random where
  pingIntn := 3
  jitterIntn := 1
  downloadFloat := ⟨1 / 4, by norm_num, by norm_num⟩
  uploadFloat := ⟨1 / 2, by norm_num, by norm_num⟩

/-- Outcome of the three latency tiers as a function of the two strategies' results:
the values of the first tier that succeeded, and the tiers attempted in order. -/
def latencyTier (primary alternative : ℚ × ℚ × Option GoError) (rnd : Random) :
    ℚ × ℚ × List Call :=
  if primary.2.2 = none then
    (primary.1, primary.2.1, [Call.measurePingAndJitter])
  else if alternative.2.2 = none then
    (alternative.1, alternative.2.1, [Call.measurePingAndJitter, Call.measureAlternativePing])
  else
    (((15 + rnd.pingIntn.val : Nat) : ℚ), ((2 + rnd.jitterIntn.val : Nat) : ℚ),
      [Call.measurePingAndJitter, Call.measureAlternativePing, Call.syntheticLatency])

/-- Outcome of the tiers of one throughput metric after its primary variant has run: the
value of the first tier that succeeded (`none` when the fallback panics) and the further
tiers attempted, in order. -/
def throughputTier (altCall synthCall : Call) (primary : ℚ × Option GoError)
    (alternative : Option (ℚ × Option GoError)) (synthetic : ℚ) : Option ℚ × List Call :=
  if primary.2 = none then (some primary.1, [])
  else
    match alternative with
    | none => (none, [altCall])
    | some (v, none) => (some v, [altCall])
    | some (_, some _) => (some synthetic, [altCall, synthCall])

/-- The primary download call selected by the flag. -/
def primaryDownloadCall (isMultiConnection : Bool) : Call :=
  if isMultiConnection then Call.measureMultiConnectionDownloadSpeed
  else Call.measureDownloadSpeed

/-- The primary upload call selected by the flag. -/
def primaryUploadCall (isMultiConnection : Bool) : Call :=
  if isMultiConnection then Call.measureMultiConnectionUploadSpeed
  else Call.measureUploadSpeed

/-! ## Result assembler -/

/-- Embedding of `models.SpeedTestResult`; `CreatedAt` is the instant in Unix nanoseconds. -/
structure SpeedTestResult where
  ID : String
  UserID : String
  DownloadSpeed : ℚ
  UploadSpeed : ℚ
  Ping : ℚ
  Jitter : ℚ
  ISP : String
  IPAddress : String
  Country : String
  Region : String
  CreatedAt : Int
  deriving DecidableEq

/-- A Go `map[string]string`: the value stored under each key, if any. -/
abbrev StringMap := String → Option String

/-- The index expression `m[key]` of a Go map: the zero value `""` for a missing key. -/
def StringMap.index (m : StringMap) (key : String) : String := (m key).getD ""

/-- Embedding of the interface `repositories.SpeedTestRepository` over a store state `σ`:
each method maps the state before the call to its results and the state after it. -/
structure SpeedTestRepository (σ : Type) where
  SaveResult : σ → SpeedTestResult → σ × Option GoError
  GetResultsByUserID : σ → String → List SpeedTestResult × Option GoError
  GetResultByID : σ → String → Option SpeedTestResult × Option GoError
  DeleteResult : σ → String → σ × Option GoError

/-- What one call of `RunSpeedTest` produced: the returned pointer (`none` for `nil`), the
returned error, the store state afterwards and the arguments of the `SaveResult` calls it
made, in order. -/
structure RunOutcome (σ : Type) where
  result : Option SpeedTestResult
  err : Option GoError
  store : σ
  saved : List SpeedTestResult

/-- Embedding of `RunSpeedTest`. `unixNano` is the value of `time.Now().UnixNano()` read for
the ID, `createdAt` the later `time.Now()`; `none` stands for a run-time panic. -/
def RunSpeedTest {σ : Type} (speedTestRepo : SpeedTestRepository σ) (store : σ)
    (net : Network) (rnd : Random) (unixNano createdAt : Int)
    (userID : String) (ipInfo : StringMap) (isMultiConnection : Bool) :
    Option (RunOutcome σ) :=
  match performSpeedTest net rnd isMultiConnection with
  | none => none
  | some (_, _, _, _, some err) =>
    some { result := none, err := some err, store := store, saved := [] }
  | some (downloadSpeed, uploadSpeed, ping, jitter, none) =>
    let resultID := toString unixNano
    let result : SpeedTestResult :=
      { ID := resultID
        UserID := userID
        DownloadSpeed := downloadSpeed
        UploadSpeed := uploadSpeed
        Ping := ping
        Jitter := jitter
        ISP := ipInfo.index "isp"
        IPAddress := ipInfo.index "ip"
        Country := ipInfo.index "country"
        Region := ipInfo.index "region"
        CreatedAt := createdAt }
    let (newStore, err) := speedTestRepo.SaveResult store result
    some { result := some result, err := err, store := newStore, saved := [result] }

/-! ## In-memory store (`cmd/api/main.go`) -/

/-- Embedding of `InMemorySpeedTestRepo`: the Go map `results` as an association list. -/
structure InMemorySpeedTestRepo where
  results : List (String × SpeedTestResult)
  deriving DecidableEq

/-- Embedding of `createInMemorySpeedTestRepo`: an empty map. -/
def createInMemorySpeedTestRepo : InMemorySpeedTestRepo := { results := [] }

/-- The map assignment `m[key] = value`. -/
def mapAssign (m : List (String × SpeedTestResult)) (key : String) (value : SpeedTestResult) :
    List (String × SpeedTestResult) :=
  (key, value) :: m.filter (fun kv => kv.1 ≠ key)

/-- The map lookup `value, ok := m[key]`. -/
def mapLookup (m : List (String × SpeedTestResult)) (key : String) : Option SpeedTestResult :=
  (m.find? (fun kv => kv.1 = key)).map (fun kv => kv.2)

/-- The built-in `delete(m, key)`. -/
def mapDelete (m : List (String × SpeedTestResult)) (key : String) :
    List (String × SpeedTestResult) :=
  m.filter (fun kv => kv.1 ≠ key)

/-- Embedding of `(*InMemorySpeedTestRepo).SaveResult`. -/
def InMemorySpeedTestRepo.SaveResult (r : InMemorySpeedTestRepo) (result : SpeedTestResult) :
    InMemorySpeedTestRepo × Option GoError :=
  ({ results := mapAssign r.results result.ID result }, none)

/-- Embedding of `(*InMemorySpeedTestRepo).GetResultsByUserID`; the iteration order of the
Go map is left unspecified by the language, the list order stands for it. -/
def InMemorySpeedTestRepo.GetResultsByUserID (r : InMemorySpeedTestRepo) (userID : String) :
    List SpeedTestResult × Option GoError :=
  (r.results.foldl (fun userResults kv =>
      if kv.2.UserID = userID then userResults ++ [kv.2] else userResults) [], none)

/-- Embedding of `(*InMemorySpeedTestRepo).GetResultByID`. -/
def InMemorySpeedTestRepo.GetResultByID (r : InMemorySpeedTestRepo) (id : String) :
    Option SpeedTestResult × Option GoError :=
  match mapLookup r.results id with
  | none => (none, some "result not found")
  | some result => (some result, none)

/-- Embedding of `(*InMemorySpeedTestRepo).DeleteResult`. -/
def InMemorySpeedTestRepo.DeleteResult (r : InMemorySpeedTestRepo) (id : String) :
    InMemorySpeedTestRepo × Option GoError :=
  ({ results := mapDelete r.results id }, none)

/-- The in-memory store as an implementation of the repository interface. -/
def inMemoryRepository : SpeedTestRepository InMemorySpeedTestRepo where
  SaveResult := InMemorySpeedTestRepo.SaveResult
  GetResultsByUserID := InMemorySpeedTestRepo.GetResultsByUserID
  GetResultByID := InMemorySpeedTestRepo.GetResultByID
  DeleteResult := InMemorySpeedTestRepo.DeleteResult

/-- A repository whose `SaveResult` always fails and stores nothing. -/
def failingRepository : SpeedTestRepository Unit where
  SaveResult := fun st _ => (st, some "connection refused")
  GetResultsByUserID := fun _ _ => ([], some "connection refused")
  GetResultByID := fun _ _ => (none, some "connection refused")
  DeleteResult := fun st _ => (st, some "connection refused")

/-- The metadata map built by the controller for a request. -/
def sampleIpInfo : StringMap := fun key =>
  if key = "ip" then some "203.0.113.7:51234"
  else if key = "isp" then some "Example ISP"
  else if key = "country" then some "Turkey"
  else if key = "region" then some "Istanbul"
  else none

/-- The empty metadata map. -/
def emptyIpInfo : StringMap := fun _ => none

/-- A stored result used in examples. -/
def sampleResult : SpeedTestResult :=
  { ID := "1700000000000000000", UserID := "anonymous", DownloadSpeed := 100,
    UploadSpeed := 20, Ping := 12, Jitter := 5 / 2, ISP := "Example ISP",
    IPAddress := "203.0.113.7:51234", Country := "Turkey", Region := "Istanbul",
    CreatedAt := 1700000000000000100 }

/-! ## Server list, timeouts and upload requests -/

/-- Embedding of `TestServer`. -/
structure TestServer where
  Name : String
  URL : String
  Location : String
  deriving DecidableEq

/-- Embedding of the package variable `testServers`. -/
def testServers : List TestServer :=
  [ { Name := "Cloudflare", URL := "https://speed.cloudflare.com", Location := "Global CDN" },
    { Name := "Turksat", URL := "http://speedtest.turksat.com.tr",
      Location := "Ankara, Turkey" },
    { Name := "Turk Telekom", URL := "http://speedtest.turktelekom.com.tr",
      Location := "Istanbul, Turkey" },
    { Name := "Google", URL := "https://www.google.com", Location := "Global CDN" },
    { Name := "Microsoft", URL := "https://www.microsoft.com", Location := "Global CDN" } ]

/-- The statement `serverIndex := connID % len(testServers)` of both multi-connection
workers. -/
def serverIndex (connID : Nat) : Nat := connID % testServers.length

/-- The server `testServers[serverIndex]` a worker is bound to; `none` stands for the
index-out-of-range panic. -/
def workerServer (connID : Nat) : Option TestServer := testServers.get? (serverIndex connID)

/-- The URL requested by download worker `connID`:
`fmt.Sprintf("%s/__down?bytes=%d", testServers[serverIndex].URL, fileSize)`. -/
def multiDownloadUrl (connID : Nat) : Option String :=
  let fileSize : Nat := 10000000
  (workerServer connID).map (fun server => server.URL ++ "/__down?bytes=" ++ toString fileSize)

/-- The URL requested by upload worker `connID`:
`fmt.Sprintf("%s/__up", testServers[serverIndex].URL)`. -/
def multiUploadUrl (connID : Nat) : Option String :=
  (workerServer connID).map (fun server => server.URL ++ "/__up")

/-- The places where the measurement engine issues a network call. -/
inductive NetworkCall where
  | pingDial
  | alternativePingHead
  | downloadGet
  | multiDownloadGet
  | alternativeDownloadGet
  | uploadDo
  | multiUploadDo
  | alternativeUploadDo
  deriving DecidableEq

/-- The timeout, in seconds, each network call is configured with in the source; `none`
when the call goes through `http.DefaultClient`, whose `Timeout` is zero (no timeout).
`pingDial`: `net.DialTimeout("tcp", host+":80", 2*time.Second)`;
`alternativePingHead`: `http.Head("https://" + host)`;
`downloadGet`: `http.Client{Timeout: 30 * time.Second}`;
`multiDownloadGet`: `http.Client{Timeout: 20 * time.Second}`;
`alternativeDownloadGet`: `http.Get(url)`;
`uploadDo`: `http.Client{Timeout: 30 * time.Second}`;
`multiUploadDo`: `http.Client{Timeout: 20 * time.Second}`;
`alternativeUploadDo`: `http.Client{Timeout: 15 * time.Second}`. -/
def configuredTimeout : NetworkCall → Option Nat
  | .pingDial => some 2
  | .alternativePingHead => none
  | .downloadGet => some 30
  | .multiDownloadGet => some 20
  | .alternativeDownloadGet => none
  | .uploadDo => some 30
  | .multiUploadDo => some 20
  | .alternativeUploadDo => some 15

/-- Number of upload workers, among the 4, that obtained a response. -/
def succeededUploads (post : Nat → Upload) : Nat :=
  ((List.range 4).filter (fun connID => !(post connID).failed)).length

/-- What a completed HTTP exchange delivered: the request bytes actually written, and the
status code and body of the response. -/
structure HttpExchange where
  bytesSent : Nat
  statusCode : Nat
  responseBody : List Nat

/-- What the upload code observes of `client.Do(req)`: whether it returned an error. -/
def Upload.ofDo : Except GoError HttpExchange → Upload
  | .error err => .doFailed err
  | .ok _ => .done

/-- The fields `measureUploadSpeed` sets on its request: method, URL, the length of the
body reader (`io.LimitReader(..., int64(payloadSize))`), `req.ContentLength` and the
content type. -/
structure UploadRequest where
  method : String
  url : String
  bodyLength : Int
  contentLength : Int
  contentType : String
  deriving DecidableEq

/-- The request built by `measureUploadSpeed`. -/
def measureUploadSpeedRequest : UploadRequest :=
  let payloadSize : Nat := 5 * 1024 * 1024
  { method := "POST"
    url := "https://speed.cloudflare.com/__up"
    bodyLength := (payloadSize : Int)
    contentLength := (payloadSize : Int)
    contentType := "application/octet-stream" }

/-- Upload workers of which only worker 2 obtains a response. -/
def oneDonePost : Nat → Upload
  | 2 => .done
  | _ => .doFailed "context deadline exceeded"

/-! ## Reference notions for the remaining claims -/

/-- The aggregation of a sample list into `(mean, jitter, error)`: fewer than 3 samples
give `0, 0` and an error, otherwise the mean and the sample variance. -/
def latencyAggregate (samples : List ℚ) : ℚ × ℚ × Option GoError :=
  if samples.length < 3 then (0, 0, some "not enough successful pings")
  else (mean samples, sampleVariance samples, none)

/-- Probe oracle under which the first two hosts answer after 20 + 3 * i ms on attempt `i`
and every other host fails. -/
def twoHostProbe : ProbeNet := fun host i =>
  if host = "8.8.8.8" ∨ host = "1.1.1.1" then some (20 + 3 * (i : Int)) else none

/-- A network on which every strategy measures something: non-negative latency samples
and positive elapsed times. -/
def liveNetwork : Network where
  dial := scenarioDial
  headProbe := steadyProbe
  download := .response [1000, 0] none
  downloadSeconds := 1
  multiDownload := scenarioGet
  multiDownloadSched := [3, 0, 2, 1, 0]
  multiDownloadSeconds := 3 / 2
  altDownload := scenarioAltGet
  upload := .done
  uploadSeconds := 2
  multiUpload := allDonePost
  multiUploadSched := [1, 0]
  multiUploadSeconds := 2
  altUpload := steadyAltPost

/-- Embedding of `DeleteTestResult`: the `userID` argument is not used. -/
def DeleteTestResult {σ : Type} (speedTestRepo : SpeedTestRepository σ) (store : σ)
    (resultID : String) (_userID : String) : σ × Option GoError :=
  speedTestRepo.DeleteResult store resultID

/-- The smallest rate of a list (`0` for the empty list). -/
def minRate : List ℚ → ℚ
  | [] => 0
  | x :: xs => xs.foldl min x

/-- The largest rate of a list (`0` for the empty list). -/
def maxRate : List ℚ → ℚ
  | [] => 0
  | x :: xs => xs.foldl max x

/-! ## float64 rounding of the synthetic values -/

/-- Rounding of a rational to the nearest integer, a tie going to the even one. -/
def roundHalfEven (q : ℚ) : ℤ :=
  let n := ⌊q⌋
  let r := q - n
  if r < 1 / 2 then n
  else if 1 / 2 < r then n + 1
  else if n % 2 = 0 then n else n + 1

/-- Spacing of the float64 values around `x`: `2 ^ (e - 52)` in the binade
`2 ^ e ≤ |x| < 2 ^ (e + 1)` (53-bit significand), and `2 ^ (-1074)` in the subnormal
range. -/
def float64Ulp (x : ℚ) : ℚ := (2 : ℚ) ^ (max (Int.log 2 |x| - 52) (-1074))

/-- The float64 value an exact result `x` is rounded to: the nearest multiple of the
spacing, a tie going to the even significand. Overflow to infinity is not modelled; the
values rounded here do not exceed 120. -/
def roundFloat64 (x : ℚ) : ℚ :=
  if x = 0 then 0 else (roundHalfEven (x / float64Ulp x) : ℚ) * float64Ulp x

/-- The float64 value of the expression `80 + rand.Float64()*40` of `performSpeedTest`:
the product is rounded, then the sum. `performSpeedTest` above carries the exact value
`80 + f * 40`. -/
def syntheticDownloadFloat64 (f : UnitFloat) : ℚ :=
  roundFloat64 (80 + roundFloat64 (f.val * 40))

/-- The float64 value of the expression `5 + rand.Float64()*15` of `performSpeedTest`. -/
def syntheticUploadFloat64 (f : UnitFloat) : ℚ :=
  roundFloat64 (5 + roundFloat64 (f.val * 15))

/-- The largest value `rand.Float64()` returns: `1 - 2^-53`, the float64 just below 1. -/
def largestUnitFloat : UnitFloat := ⟨1 - 1 / 2 ^ 53, by norm_num, by norm_num⟩

/-- Random draws at the top of their ranges: 9, 4 and twice `1 - 2^-53`. -/
def extremeRandom : Random where
  pingIntn := 9
  jitterIntn := 4
  downloadFloat := largestUnitFloat
  uploadFloat := largestUnitFloat

end SpeedTest

namespace SpeedTest

/-! ## Lemmas on the collection loop and the accumulators -/

theorem foldl_probe_append (f : Nat → Option Int) (is : List Nat) (acc : List ℚ) :
    is.foldl (fun pingTimes i =>
      match f i with
      | none => pingTimes
      | some ms => pingTimes ++ [(ms : ℚ)]) acc
      = acc ++ is.filterMap (fun i => Option.map (fun ms : Int => (ms : ℚ)) (f i)) := by
  induction is generalizing acc with
  | nil => simp
  | cons i is ih =>
    simp only [List.foldl_cons, ih]
    cases h : f i <;> simp [List.filterMap_cons, h]

theorem collect_foldl_eq (probe : ProbeNet) (hosts : List String) (acc : List ℚ) :
    hosts.foldl (fun pingTimes host =>
      (List.range 5).foldl (fun pingTimes i =>
        match probe host i with
        | none => pingTimes
        | some ms => pingTimes ++ [(ms : ℚ)]) pingTimes) acc
      = acc ++ samplesOf probe hosts := by
  induction hosts generalizing acc with
  | nil => simp [samplesOf]
  | cons h hs ih =>
    rw [List.foldl_cons, ih, foldl_probe_append]
    simp [samplesOf, List.append_assoc]

theorem collectPingTimes_eq (probe : ProbeNet) (hosts : List String) :
    collectPingTimes probe hosts = samplesOf probe hosts := by
  unfold collectPingTimes
  rw [collect_foldl_eq]
  simp

theorem length_filterMap_probe (f : Nat → Option Int) (is : List Nat) :
    (is.filterMap (fun i => Option.map (fun ms : Int => (ms : ℚ)) (f i))).length
      = is.countP (fun i => (f i).isSome) := by
  induction is with
  | nil => simp
  | cons i is ih =>
    cases h : f i <;> simp [List.filterMap_cons, List.countP_cons, h, ih]

theorem length_samplesOf (probe : ProbeNet) (hosts : List String) :
    (samplesOf probe hosts).length = successfulProbes probe hosts := by
  induction hosts with
  | nil => simp [samplesOf, successfulProbes]
  | cons h hs ih =>
    simp only [samplesOf, successfulProbes, List.flatMap_cons, List.length_append, List.map_cons,
      List.sum_cons] at ih ⊢
    rw [ih, length_filterMap_probe]

theorem foldl_add_eq_sum (xs : List ℚ) (g : ℚ → ℚ) (acc : ℚ) :
    xs.foldl (fun s p => s + g p) acc = acc + (xs.map g).sum := by
  induction xs generalizing acc with
  | nil => simp
  | cons x xs ih => simp [ih, add_assoc]

end SpeedTest

namespace SpeedTest

/-! ## Latency estimator: statistics -/

/-- The statistics block both latency strategies apply to the collected samples. -/
theorem latency_block_eq (xs : List ℚ) :
    (if xs.length < 3 then ((0 : ℚ), (0 : ℚ), (some "not enough successful pings" : Option GoError))
     else
      let sum := xs.foldl (fun sum p => sum + p) 0
      let avgPing := sum / (xs.length : ℚ)
      let variance := xs.foldl (fun variance p => variance + (p - avgPing) * (p - avgPing)) 0
      let jitter :=
        if xs.length > 1 then variance / (((xs.length : Int) - 1 : Int) : ℚ) else 0
      (avgPing, jitter, none))
    = if xs.length < 3 then (0, 0, some "not enough successful pings")
      else (mean xs, sampleVariance xs, none) := by
  by_cases h : xs.length < 3
  · simp [h]
  · have h1 : 1 < xs.length := by omega
    have hs : xs.foldl (fun sum p => sum + p) 0 = xs.sum := by
      have := foldl_add_eq_sum xs (fun p => p) 0
      simpa using this
    simp only [h, if_false, gt_iff_lt, h1, if_true, hs]
    have hv : xs.foldl (fun variance p =>
        variance + (p - xs.sum / (xs.length : ℚ)) * (p - xs.sum / (xs.length : ℚ))) 0
        = (xs.map (fun x => (x - mean xs) ^ 2)).sum := by
      rw [foldl_add_eq_sum xs (fun p => (p - xs.sum / (xs.length : ℚ)) * (p - xs.sum / (xs.length : ℚ))) 0]
      simp [mean, pow_two]
    rw [hv]
    simp [mean, sampleVariance, h1]

theorem measurePingAndJitter_eq (dial : ProbeNet) :
    measurePingAndJitter dial =
      if (samplesOf dial primaryHosts).length < 3 then (0, 0, some "not enough successful pings")
      else (mean (samplesOf dial primaryHosts), sampleVariance (samplesOf dial primaryHosts), none) := by
  have h := latency_block_eq (collectPingTimes dial primaryHosts)
  rw [collectPingTimes_eq] at h
  rw [← h, ← collectPingTimes_eq]
  rfl

theorem measureAlternativePing_eq (head : ProbeNet) :
    measureAlternativePing head =
      if (samplesOf head secondaryHosts).length < 3 then (0, 0, some "not enough successful pings")
      else (mean (samplesOf head secondaryHosts), sampleVariance (samplesOf head secondaryHosts),
        none) := by
  have h := latency_block_eq (collectPingTimes head secondaryHosts)
  rw [collectPingTimes_eq] at h
  rw [← h, ← collectPingTimes_eq]
  rfl

theorem sampleVariance_nonneg (xs : List ℚ) : 0 ≤ sampleVariance xs := by
  unfold sampleVariance
  split_ifs with h
  · apply div_nonneg
    · apply List.sum_nonneg
      intro y hy
      rcases List.mem_map.1 hy with ⟨x, _, rfl⟩
      exact sq_nonneg _
    · have : (2 : ℚ) ≤ (xs.length : ℚ) := by exact_mod_cast h
      linarith
  · exact le_refl _

theorem sum_eq_length_mul (xs : List ℚ) (c : ℚ) (h : ∀ x ∈ xs, x = c) :
    xs.sum = (xs.length : ℚ) * c := by
  induction xs with
  | nil => simp
  | cons x xs ih =>
    have hx : x = c := h x (List.mem_cons_self _ _)
    have := ih (fun y hy => h y (List.mem_cons_of_mem _ hy))
    simp only [List.sum_cons, List.length_cons, this, hx]
    push_cast
    ring

theorem sampleVariance_const (xs : List ℚ) (h : ∀ x ∈ xs, ∀ y ∈ xs, x = y) :
    sampleVariance xs = 0 := by
  unfold sampleVariance
  split_ifs with h1
  · cases xs with
    | nil => simp at h1
    | cons c t =>
      have hc : ∀ x ∈ c :: t, x = c := fun x hx => h x hx c (List.mem_cons_self _ _)
      have hm : mean (c :: t) = c := by
        unfold mean
        rw [sum_eq_length_mul (c :: t) c hc]
        have : ((c :: t).length : ℚ) ≠ 0 := by
          simp only [List.length_cons]; push_cast; positivity
        field_simp
      have hz : ((c :: t).map (fun x => (x - mean (c :: t)) ^ 2)).sum = 0 := by
        apply List.sum_eq_zero
        intro y hy
        rcases List.mem_map.1 hy with ⟨x, hx, rfl⟩
        rw [hm, hc x hx]; simp
      rw [hz]; simp
  · rfl

end SpeedTest

namespace SpeedTest

/-! ## Latency estimator: claims -/

/-- C1: with at least 3 collected samples `measurePingAndJitter` returns, without error, the
arithmetic mean of the samples and their sample variance (sum of squared deviations from
that mean over `n - 1`); the scenario samples `[10,12,11,13,14]` give mean 12 and
jitter 2.5. -/
theorem measurePingAndJitter_mean_variance (dial : ProbeNet)
    (h : 3 ≤ (samplesOf dial primaryHosts).length) :
    measurePingAndJitter dial
        = (mean (samplesOf dial primaryHosts), sampleVariance (samplesOf dial primaryHosts), none)
      ∧ samplesOf scenarioDial primaryHosts = [10, 12, 11, 13, 14]
      ∧ measurePingAndJitter scenarioDial = (12, 5 / 2, none) := by
  refine ⟨?_, ?_, ?_⟩
  · rw [measurePingAndJitter_eq, if_neg (by omega)]
  · decide
  · rw [measurePingAndJitter_eq]
    have hs : samplesOf scenarioDial primaryHosts = [10, 12, 11, 13, 14] := by decide
    rw [hs]
    norm_num [mean, sampleVariance]

/-- Witness for C1 at the scenario probe outcomes. -/
theorem measurePingAndJitter_mean_variance_witness :
    3 ≤ (samplesOf scenarioDial primaryHosts).length
      ∧ measurePingAndJitter scenarioDial
        = (mean (samplesOf scenarioDial primaryHosts),
            sampleVariance (samplesOf scenarioDial primaryHosts), none) :=
  ⟨by decide, (measurePingAndJitter_mean_variance scenarioDial (by decide)).1⟩

/-- C2: for each latency strategy fed at least 2 samples, the returned jitter is
non-negative, and it is exactly 0 when all collected samples are equal. -/
theorem latency_jitter_nonneg (dial head : ProbeNet)
    (hd : 2 ≤ (samplesOf dial primaryHosts).length)
    (hh : 2 ≤ (samplesOf head secondaryHosts).length) :
    (0 ≤ (measurePingAndJitter dial).2.1
        ∧ ((∀ x ∈ samplesOf dial primaryHosts, ∀ y ∈ samplesOf dial primaryHosts, x = y) →
            (measurePingAndJitter dial).2.1 = 0))
      ∧ (0 ≤ (measureAlternativePing head).2.1
        ∧ ((∀ x ∈ samplesOf head secondaryHosts, ∀ y ∈ samplesOf head secondaryHosts, x = y) →
            (measureAlternativePing head).2.1 = 0)) := by
  have _ := hd
  have _ := hh
  refine ⟨⟨?_, ?_⟩, ⟨?_, ?_⟩⟩
  · rw [measurePingAndJitter_eq]
    split_ifs
    · exact le_refl _
    · exact sampleVariance_nonneg _
  · intro heq
    rw [measurePingAndJitter_eq]
    split_ifs
    · rfl
    · exact sampleVariance_const _ heq
  · rw [measureAlternativePing_eq]
    split_ifs
    · exact le_refl _
    · exact sampleVariance_nonneg _
  · intro heq
    rw [measureAlternativePing_eq]
    split_ifs
    · rfl
    · exact sampleVariance_const _ heq

/-- Witness for C2: the scenario samples for the primary strategy, ten equal samples for
the secondary one. -/
theorem latency_jitter_nonneg_witness :
    2 ≤ (samplesOf scenarioDial primaryHosts).length
      ∧ 2 ≤ (samplesOf steadyProbe secondaryHosts).length
      ∧ 0 ≤ (measurePingAndJitter scenarioDial).2.1
      ∧ (measureAlternativePing steadyProbe).2.1 = 0 :=
  ⟨by decide, by decide,
    (latency_jitter_nonneg scenarioDial steadyProbe (by decide) (by decide)).1.1,
    (latency_jitter_nonneg scenarioDial steadyProbe (by decide) (by decide)).2.2 (by decide)⟩

/-- C3: each latency strategy returns `0, 0` and the error "not enough successful pings"
when fewer than 3 probes of its probe set succeeded, and returns without error
otherwise. -/
theorem latency_insufficient_samples (dial head : ProbeNet) :
    ((successfulProbes dial primaryHosts < 3
          ∧ measurePingAndJitter dial = (0, 0, some "not enough successful pings"))
        ∨ (3 ≤ successfulProbes dial primaryHosts ∧ (measurePingAndJitter dial).2.2 = none))
      ∧ ((successfulProbes head secondaryHosts < 3
          ∧ measureAlternativePing head = (0, 0, some "not enough successful pings"))
        ∨ (3 ≤ successfulProbes head secondaryHosts
          ∧ (measureAlternativePing head).2.2 = none)) := by
  constructor
  · rw [measurePingAndJitter_eq, length_samplesOf]
    by_cases h : successfulProbes dial primaryHosts < 3
    · exact Or.inl ⟨h, by rw [if_pos h]⟩
    · exact Or.inr ⟨by omega, by rw [if_neg h]⟩
  · rw [measureAlternativePing_eq, length_samplesOf]
    by_cases h : successfulProbes head secondaryHosts < 3
    · exact Or.inl ⟨h, by rw [if_pos h]⟩
    · exact Or.inr ⟨by omega, by rw [if_neg h]⟩

end SpeedTest

namespace SpeedTest

/-! ## Multi-connection estimators: the join point does not depend on the interleaving -/

theorem foldl_apply_totalBytes (w : List Action) (st : Shared) :
    (w.foldl Shared.apply st).totalBytes = st.totalBytes + bytesIn w := by
  induction w generalizing st with
  | nil => simp [bytesIn]
  | cons a w ih =>
    cases a <;> simp [List.foldl_cons, ih, Shared.apply, bytesIn]; omega

theorem foldl_apply_errors (w : List Action) (st : Shared) :
    (w.foldl Shared.apply st).errors.length = st.errors.length + errorsIn w := by
  induction w generalizing st with
  | nil => simp [errorsIn]
  | cons a w ih =>
    cases a <;> simp [List.foldl_cons, ih, Shared.apply, errorsIn]; omega

theorem drain_totalBytes (ws : List (List Action)) (st : Shared) :
    (ws.foldl (fun st w => w.foldl Shared.apply st) st).totalBytes
      = st.totalBytes + (ws.map bytesIn).sum := by
  induction ws generalizing st with
  | nil => simp
  | cons w ws ih => simp [List.foldl_cons, ih, foldl_apply_totalBytes, add_assoc]

theorem drain_errors (ws : List (List Action)) (st : Shared) :
    (ws.foldl (fun st w => w.foldl Shared.apply st) st).errors.length
      = st.errors.length + (ws.map errorsIn).sum := by
  induction ws generalizing st with
  | nil => simp
  | cons w ws ih => simp [List.foldl_cons, ih, foldl_apply_errors, add_assoc]

/-- Removing the head action of worker `i` lowers an additive measure by that action's
share. -/
theorem sum_map_set_tail (f : List Action → Nat) (k : Nat) (a : Action) (rest : List Action)
    (hf : f (a :: rest) = f rest + k) :
    ∀ (ws : List (List Action)) (i : Nat), ws.get? i = some (a :: rest) →
      ((ws.set i rest).map f).sum + k = (ws.map f).sum := by
  intro ws
  induction ws with
  | nil => intro i h; simp at h
  | cons w ws ih =>
    intro i h
    cases i with
    | zero =>
      simp only [List.get?_cons_zero, Option.some.injEq] at h
      subst h
      simp only [List.set_cons_zero, List.map_cons, List.sum_cons, hf]
      omega
    | succ j =>
      simp only [List.get?_cons_succ] at h
      have := ih j h
      simp only [List.set_cons_succ, List.map_cons, List.sum_cons]
      omega

theorem runWorkers_totalBytes (sched : List Nat) :
    ∀ (ws : List (List Action)) (st : Shared),
      (runWorkers sched ws st).totalBytes = st.totalBytes + (ws.map bytesIn).sum := by
  induction sched with
  | nil => intro ws st; simp [runWorkers, drain_totalBytes]
  | cons i sched ih =>
    intro ws st
    unfold runWorkers
    split
    · rename_i a rest h
      rw [ih]
      cases a with
      | addBytes n =>
        have := sum_map_set_tail bytesIn n (.addBytes n) rest (by simp [bytesIn]) ws i h
        simp only [Shared.apply]
        omega
      | appendError e =>
        have := sum_map_set_tail bytesIn 0 (.appendError e) rest (by simp [bytesIn]) ws i h
        simp only [Shared.apply]
        omega
    · exact ih ws st

theorem runWorkers_errors (sched : List Nat) :
    ∀ (ws : List (List Action)) (st : Shared),
      (runWorkers sched ws st).errors.length = st.errors.length + (ws.map errorsIn).sum := by
  induction sched with
  | nil => intro ws st; simp [runWorkers, drain_errors]
  | cons i sched ih =>
    intro ws st
    unfold runWorkers
    split
    · rename_i a rest h
      rw [ih]
      cases a with
      | addBytes n =>
        have := sum_map_set_tail errorsIn 0 (.addBytes n) rest (by simp [errorsIn]) ws i h
        simp only [Shared.apply]
        omega
      | appendError e =>
        have := sum_map_set_tail errorsIn 1 (.appendError e) rest (by simp [errorsIn]) ws i h
        simp only [Shared.apply, List.length_append, List.length_singleton]
        omega
    · exact ih ws st

theorem bytesIn_append (xs ys : List Action) : bytesIn (xs ++ ys) = bytesIn xs + bytesIn ys := by
  induction xs with
  | nil => simp [bytesIn]
  | cons a xs ih => cases a <;> simp [bytesIn, ih]; omega

theorem errorsIn_append (xs ys : List Action) :
    errorsIn (xs ++ ys) = errorsIn xs + errorsIn ys := by
  induction xs with
  | nil => simp [errorsIn]
  | cons a xs ih => cases a <;> simp [errorsIn, ih]; omega

theorem bytesIn_reads (reads : List Nat) :
    bytesIn ((reads.filter (fun n => n > 0)).map Action.addBytes) = reads.sum := by
  induction reads with
  | nil => simp [bytesIn]
  | cons n reads ih =>
    by_cases h : n > 0
    · simp [List.filter_cons, h, bytesIn, ih]; omega
    · have h0 : n = 0 := by omega
      simp [List.filter_cons, h0, ih]

theorem errorsIn_reads (reads : List Nat) :
    errorsIn ((reads.filter (fun n => n > 0)).map Action.addBytes) = 0 := by
  induction reads with
  | nil => simp [errorsIn]
  | cons n reads ih =>
    by_cases h : n > 0
    · simp [List.filter_cons, h, errorsIn, ih]
    · have h0 : n = 0 := by omega
      simp [List.filter_cons, h0, ih]

theorem bytesIn_downloadWorker (d : Download) : bytesIn (downloadWorker d) = d.bytesRead := by
  cases d with
  | getFailed e => simp [downloadWorker, bytesIn, Download.bytesRead]
  | response reads readErr =>
    cases readErr <;>
      simp [downloadWorker, bytesIn_append, bytesIn_reads, bytesIn, Download.bytesRead]

theorem errorsIn_downloadWorker (d : Download) :
    errorsIn (downloadWorker d) = if d.failed then 1 else 0 := by
  cases d with
  | getFailed e => simp [downloadWorker, errorsIn, Download.failed]
  | response reads readErr =>
    cases readErr <;>
      simp [downloadWorker, errorsIn_append, errorsIn_reads, errorsIn, Download.failed]

theorem bytesIn_uploadWorker (size : Nat) (u : Upload) :
    bytesIn (uploadWorker size u) = if u.failed then 0 else size := by
  cases u <;> simp [uploadWorker, bytesIn, Upload.failed]

theorem errorsIn_uploadWorker (size : Nat) (u : Upload) :
    errorsIn (uploadWorker size u) = if u.failed then 1 else 0 := by
  cases u <;> simp [uploadWorker, errorsIn, Upload.failed]

theorem multiDownloadJoin_totalBytes (get : Nat → Download) (sched : List Nat) :
    (multiDownloadJoin get sched).totalBytes
      = (get 0).bytesRead + (get 1).bytesRead + (get 2).bytesRead + (get 3).bytesRead := by
  simp only [multiDownloadJoin, runWorkers_totalBytes, List.map_map]
  simp [List.range_succ, bytesIn_downloadWorker]
  omega

theorem multiDownloadJoin_errors (get : Nat → Download) (sched : List Nat) :
    (multiDownloadJoin get sched).errors.length
      = (if (get 0).failed then 1 else 0) + (if (get 1).failed then 1 else 0)
        + (if (get 2).failed then 1 else 0) + (if (get 3).failed then 1 else 0) := by
  simp only [multiDownloadJoin, runWorkers_errors, List.map_map]
  simp [List.range_succ, errorsIn_downloadWorker]
  omega

theorem multiUploadJoin_totalBytes (post : Nat → Upload) (sched : List Nat) :
    (multiUploadJoin post sched).totalBytes
      = (if (post 0).failed then 0 else 2097152) + (if (post 1).failed then 0 else 2097152)
        + (if (post 2).failed then 0 else 2097152) + (if (post 3).failed then 0 else 2097152) := by
  simp only [multiUploadJoin, runWorkers_totalBytes, List.map_map]
  simp [List.range_succ, bytesIn_uploadWorker]
  omega

theorem multiUploadJoin_errors (post : Nat → Upload) (sched : List Nat) :
    (multiUploadJoin post sched).errors.length
      = (if (post 0).failed then 1 else 0) + (if (post 1).failed then 1 else 0)
        + (if (post 2).failed then 1 else 0) + (if (post 3).failed then 1 else 0) := by
  simp only [multiUploadJoin, runWorkers_errors, List.map_map]
  simp [List.range_succ, errorsIn_uploadWorker]
  omega

theorem foldl_add_nat (reads : List Nat) (acc : Nat) :
    reads.foldl (fun totalBytes n => totalBytes + n) acc = acc + reads.sum := by
  induction reads generalizing acc with
  | nil => simp
  | cons n reads ih => simp [ih, add_assoc]

end SpeedTest

namespace SpeedTest

/-! ## Direct throughput estimators: claims -/

theorem four_flags (b0 b1 b2 b3 : Bool) :
    (if b0 then 1 else 0) + (if b1 then 1 else 0) + (if b2 then 1 else 0)
        + (if b3 then 1 else 0) = 4
      ↔ (b0 = true ∧ b1 = true ∧ b2 = true ∧ b3 = true) := by
  cases b0 <;> cases b1 <;> cases b2 <;> cases b3 <;> simp

theorem forall_lt_four (p : Nat → Prop) :
    (∀ c, c < 4 → p c) ↔ (p 0 ∧ p 1 ∧ p 2 ∧ p 3) := by
  constructor
  · intro h
    exact ⟨h 0 (by omega), h 1 (by omega), h 2 (by omega), h 3 (by omega)⟩
  · rintro ⟨h0, h1, h2, h3⟩ c hc
    interval_cases c <;> assumption

theorem download_errors_eq_four (get : Nat → Download) (sched : List Nat) :
    (multiDownloadJoin get sched).errors.length = 4
      ↔ ∀ c, c < 4 → (get c).failed = true := by
  rw [multiDownloadJoin_errors, four_flags, forall_lt_four]

theorem upload_errors_eq_four (post : Nat → Upload) (sched : List Nat) :
    (multiUploadJoin post sched).errors.length = 4
      ↔ ∀ c, c < 4 → (post c).failed = true := by
  rw [multiUploadJoin_errors, four_flags, forall_lt_four]

theorem not_all_failed_iff (failed : Nat → Bool) :
    (¬ ∀ c, c < 4 → failed c = true) ↔ ∃ c, c < 4 ∧ failed c = false := by
  constructor
  · intro h
    by_contra hne
    apply h
    intro c hc
    by_contra hf
    exact hne ⟨c, hc, by simpa using hf⟩
  · rintro ⟨c, hc, hf⟩ h
    rw [h c hc] at hf
    exact Bool.noConfusion hf

theorem measureMultiConnectionDownloadSpeed_eq (get : Nat → Download) (sched : List Nat)
    (elapsedSeconds : ℚ) :
    measureMultiConnectionDownloadSpeed get sched elapsedSeconds
      = if ∀ c : Nat, c < 4 → (get c).failed = true then
          (0, some "all download connections failed")
        else (mbps ((get 0).bytesRead + (get 1).bytesRead + (get 2).bytesRead
          + (get 3).bytesRead) elapsedSeconds, none) := by
  unfold measureMultiConnectionDownloadSpeed
  simp only [download_errors_eq_four, multiDownloadJoin_totalBytes, mbps]

theorem measureMultiConnectionUploadSpeed_eq (post : Nat → Upload) (sched : List Nat)
    (elapsedSeconds : ℚ) :
    measureMultiConnectionUploadSpeed post sched elapsedSeconds
      = if ∀ c : Nat, c < 4 → (post c).failed = true then
          (0, some "all upload connections failed")
        else (mbps (multiUploadJoin post sched).totalBytes elapsedSeconds, none) := by
  unfold measureMultiConnectionUploadSpeed
  simp only [upload_errors_eq_four, mbps]

theorem mbps_nonneg (bytes : Nat) (seconds : ℚ) (hpos : 0 < seconds) : 0 ≤ mbps bytes seconds := by
  unfold mbps
  positivity

theorem mbps_pos_iff (bytes : Nat) (seconds : ℚ) (hpos : 0 < seconds) :
    0 < mbps bytes seconds ↔ 0 < bytes := by
  unfold mbps
  constructor
  · intro h
    by_contra hb
    have : bytes = 0 := by omega
    subst this
    simp at h
  · intro h
    have : (0 : ℚ) < (bytes : ℚ) := by exact_mod_cast h
    positivity

theorem mbps_eq_zero (bytes : Nat) (seconds : ℚ) (hpos : 0 < seconds)
    (h : mbps bytes seconds = 0) : bytes = 0 := by
  by_contra hb
  have hb : 0 < bytes := by omega
  have := (mbps_pos_iff bytes seconds hpos).2 hb
  linarith

/-- C4: for every byte count and every elapsed time > 0, the single- and multi-connection
download and upload estimators return, on success, exactly `bytes * 8 / 1,000,000 / seconds`
for the bytes they counted; that rate is never negative and is 0 only if the byte count
is 0; 25,000,000 bytes read in 2 s give exactly 100 Mbps. -/
theorem throughput_formula (reads : List Nat) (get : Nat → Download) (post : Nat → Upload)
    (sched : List Nat) (elapsedSeconds : ℚ) (hpos : 0 < elapsedSeconds)
    (hget : ∃ c, c < 4 ∧ (get c).failed = false)
    (hpost : ∃ c, c < 4 ∧ (post c).failed = false) :
    measureDownloadSpeed (.response reads none) elapsedSeconds
        = (mbps reads.sum elapsedSeconds, none)
      ∧ measureMultiConnectionDownloadSpeed get sched elapsedSeconds
        = (mbps (multiDownloadJoin get sched).totalBytes elapsedSeconds, none)
      ∧ measureUploadSpeed .done elapsedSeconds = (mbps 5242880 elapsedSeconds, none)
      ∧ measureMultiConnectionUploadSpeed post sched elapsedSeconds
        = (mbps (multiUploadJoin post sched).totalBytes elapsedSeconds, none)
      ∧ (∀ bytes : Nat, 0 ≤ mbps bytes elapsedSeconds
          ∧ (mbps bytes elapsedSeconds = 0 → bytes = 0))
      ∧ measureDownloadSpeed (.response (List.replicate 1525 16384 ++ [14400, 0]) none) 2
        = (100, none) := by
  refine ⟨?_, ?_, ?_, ?_, ?_, ?_⟩
  · simp [measureDownloadSpeed, foldl_add_nat, mbps]
  · rw [measureMultiConnectionDownloadSpeed_eq, multiDownloadJoin_totalBytes,
      if_neg ((not_all_failed_iff _).2 hget)]
  · simp [measureUploadSpeed, mbps]
  · rw [measureMultiConnectionUploadSpeed_eq, if_neg ((not_all_failed_iff _).2 hpost)]
  · intro bytes
    exact ⟨mbps_nonneg bytes elapsedSeconds hpos, mbps_eq_zero bytes elapsedSeconds hpos⟩
  · simp only [measureDownloadSpeed, foldl_add_nat]
    norm_num [List.sum_replicate]

/-- Witness for C4: a 1000-byte single download and four succeeding workers, over 1 s. -/
theorem throughput_formula_witness :
    (0 : ℚ) < 1
      ∧ (∃ c, c < 4 ∧ (mixedGet c).failed = false)
      ∧ (∃ c, c < 4 ∧ (allDonePost c).failed = false)
      ∧ measureDownloadSpeed (.response [1000, 0] none) 1 = (mbps 1000 1, none)
      ∧ measureMultiConnectionDownloadSpeed mixedGet [1, 0, 0] 1
        = (mbps (multiDownloadJoin mixedGet [1, 0, 0]).totalBytes 1, none) :=
  ⟨by norm_num, ⟨0, by decide, rfl⟩, ⟨0, by decide, rfl⟩,
    (throughput_formula [1000, 0] mixedGet allDonePost [1, 0, 0] 1 (by norm_num)
      ⟨0, by decide, rfl⟩ ⟨0, by decide, rfl⟩).1,
    (throughput_formula [1000, 0] mixedGet allDonePost [1, 0, 0] 1 (by norm_num)
      ⟨0, by decide, rfl⟩ ⟨0, by decide, rfl⟩).2.1⟩

/-- C5: in both multi-connection estimators every worker appends at most one error, the
error list has length 4 exactly when all 4 workers failed, the estimator returns its
"all connections failed" error in that case, and it returns a rate with no error as soon as
one worker succeeded; this holds for every interleaving of the workers. -/
theorem multi_connection_all_failed (get : Nat → Download) (post : Nat → Upload)
    (sched : List Nat) (elapsedSeconds : ℚ) :
    (∀ c, errorsIn (downloadWorker (get c)) ≤ 1)
      ∧ (∀ c, errorsIn (uploadWorker (2 * 1024 * 1024) (post c)) ≤ 1)
      ∧ ((multiDownloadJoin get sched).errors.length = 4
          ↔ ∀ c, c < 4 → (get c).failed = true)
      ∧ ((multiUploadJoin post sched).errors.length = 4
          ↔ ∀ c, c < 4 → (post c).failed = true)
      ∧ (((∀ c, c < 4 → (get c).failed = true)
            ∧ measureMultiConnectionDownloadSpeed get sched elapsedSeconds
              = (0, some "all download connections failed"))
          ∨ ((∃ c, c < 4 ∧ (get c).failed = false)
            ∧ (measureMultiConnectionDownloadSpeed get sched elapsedSeconds).2 = none))
      ∧ (((∀ c, c < 4 → (post c).failed = true)
            ∧ measureMultiConnectionUploadSpeed post sched elapsedSeconds
              = (0, some "all upload connections failed"))
          ∨ ((∃ c, c < 4 ∧ (post c).failed = false)
            ∧ (measureMultiConnectionUploadSpeed post sched elapsedSeconds).2 = none)) := by
  refine ⟨?_, ?_, download_errors_eq_four get sched, upload_errors_eq_four post sched, ?_, ?_⟩
  · intro c
    rw [errorsIn_downloadWorker]
    split_ifs <;> omega
  · intro c
    rw [errorsIn_uploadWorker]
    split_ifs <;> omega
  · rw [measureMultiConnectionDownloadSpeed_eq]
    by_cases h : ∀ c, c < 4 → (get c).failed = true
    · exact Or.inl ⟨h, by rw [if_pos h]⟩
    · exact Or.inr ⟨(not_all_failed_iff _).1 h, by rw [if_neg h]⟩
  · rw [measureMultiConnectionUploadSpeed_eq]
    by_cases h : ∀ c, c < 4 → (post c).failed = true
    · exact Or.inl ⟨h, by rw [if_pos h]⟩
    · exact Or.inr ⟨(not_all_failed_iff _).1 h, by rw [if_neg h]⟩

/-- C6, as stated, fails: with worker 0 succeeding (1000 bytes), worker 1 failing after
500 bytes and workers 2, 3 failing at the GET, the rate is computed from 1500 bytes, not
from the 1000 bytes of the succeeding worker; and with one worker succeeding on an empty
body the returned rate is 0, not strictly positive. -/
theorem multi_download_rate_counterexample :
    ((mixedGet 0).failed = false
        ∧ succeededBytes mixedGet = 1000
        ∧ measureMultiConnectionDownloadSpeed mixedGet [] 1 = (mbps 1500 1, none)
        ∧ (measureMultiConnectionDownloadSpeed mixedGet [] 1).1
          ≠ mbps (succeededBytes mixedGet) 1)
      ∧ ((emptyBodyGet 0).failed = false
        ∧ measureMultiConnectionDownloadSpeed emptyBodyGet [] 1 = (0, none)) := by
  have hp : ∃ c, c < 4 ∧ (mixedGet c).failed = false := ⟨0, by decide, rfl⟩
  have he : ∃ c, c < 4 ∧ (emptyBodyGet c).failed = false := ⟨0, by decide, rfl⟩
  have hb : (mixedGet 0).bytesRead + (mixedGet 1).bytesRead + (mixedGet 2).bytesRead
      + (mixedGet 3).bytesRead = 1500 := by decide
  have hz : (emptyBodyGet 0).bytesRead + (emptyBodyGet 1).bytesRead
      + (emptyBodyGet 2).bytesRead + (emptyBodyGet 3).bytesRead = 0 := by decide
  have hs : succeededBytes mixedGet = 1000 := by decide
  refine ⟨⟨rfl, hs, ?_, ?_⟩, rfl, ?_⟩
  · rw [measureMultiConnectionDownloadSpeed_eq, if_neg ((not_all_failed_iff _).2 hp), hb]
  · rw [measureMultiConnectionDownloadSpeed_eq, if_neg ((not_all_failed_iff _).2 hp), hb, hs]
    norm_num [mbps]
  · rw [measureMultiConnectionDownloadSpeed_eq, if_neg ((not_all_failed_iff _).2 he), hz]
    norm_num [mbps]

/-- C6, amended: over a positive elapsed time, when at least one of the 4 download workers
succeeded the estimator returns no error and the rate of the bytes read by all four
workers, which is non-negative and strictly positive exactly when at least one byte was
read; when no worker succeeded it returns "all download connections failed". -/
theorem multi_download_rate_amended (get : Nat → Download) (sched : List Nat)
    (elapsedSeconds : ℚ) (hpos : 0 < elapsedSeconds) :
    ((∃ c, c < 4 ∧ (get c).failed = false) →
        measureMultiConnectionDownloadSpeed get sched elapsedSeconds
            = (mbps ((get 0).bytesRead + (get 1).bytesRead + (get 2).bytesRead
                + (get 3).bytesRead) elapsedSeconds, none)
          ∧ 0 ≤ (measureMultiConnectionDownloadSpeed get sched elapsedSeconds).1
          ∧ (0 < (measureMultiConnectionDownloadSpeed get sched elapsedSeconds).1
              ↔ 0 < (get 0).bytesRead + (get 1).bytesRead + (get 2).bytesRead
                + (get 3).bytesRead))
      ∧ ((∀ c, c < 4 → (get c).failed = true) →
        measureMultiConnectionDownloadSpeed get sched elapsedSeconds
          = (0, some "all download connections failed")) := by
  constructor
  · intro h
    rw [measureMultiConnectionDownloadSpeed_eq, if_neg ((not_all_failed_iff _).2 h)]
    exact ⟨rfl, mbps_nonneg _ _ hpos, mbps_pos_iff _ _ hpos⟩
  · intro h
    rw [measureMultiConnectionDownloadSpeed_eq, if_pos h]

/-- Witness for the amended C6: one succeeding worker out of four, over 1 s. -/
theorem multi_download_rate_amended_witness :
    (0 : ℚ) < 1
      ∧ (∃ c, c < 4 ∧ (mixedGet c).failed = false)
      ∧ measureMultiConnectionDownloadSpeed mixedGet [1, 0, 0] 1
        = (mbps ((mixedGet 0).bytesRead + (mixedGet 1).bytesRead
          + (mixedGet 2).bytesRead + (mixedGet 3).bytesRead) 1, none) :=
  ⟨by norm_num, ⟨0, by decide, rfl⟩,
    ((multi_download_rate_amended mixedGet [1, 0, 0] 1 (by norm_num)).1
      ⟨0, by decide, rfl⟩).1⟩

/-- C7: whenever not all 4 download workers failed, the byte count at the join point is
the sum over the four workers of the bytes each read before terminating (failed workers
included), whatever the interleaving, and the returned rate is that sum
`* 8 / 1,000,000 / elapsedSeconds`; byte counts 3,000,000, 2,500,000, 0 and 3,200,000 over
1.5 s give 8,700,000 bytes and 46.4 Mbps. -/
theorem multi_download_total_bytes (get : Nat → Download) (sched : List Nat)
    (elapsedSeconds : ℚ) (hpos : 0 < elapsedSeconds)
    (hget : ∃ c, c < 4 ∧ (get c).failed = false) :
    (multiDownloadJoin get sched).totalBytes
        = (get 0).bytesRead + (get 1).bytesRead + (get 2).bytesRead + (get 3).bytesRead
      ∧ measureMultiConnectionDownloadSpeed get sched elapsedSeconds
        = (((multiDownloadJoin get sched).totalBytes : ℚ) * 8 / 1000000 / elapsedSeconds, none)
      ∧ ((scenarioGet 0).bytesRead = 3000000 ∧ (scenarioGet 1).bytesRead = 2500000
          ∧ (scenarioGet 2).bytesRead = 0 ∧ (scenarioGet 3).bytesRead = 3200000)
      ∧ (multiDownloadJoin scenarioGet sched).totalBytes = 8700000
      ∧ measureMultiConnectionDownloadSpeed scenarioGet sched (3 / 2) = (232 / 5, none) := by
  have hb : (scenarioGet 0).bytesRead = 3000000 ∧ (scenarioGet 1).bytesRead = 2500000
      ∧ (scenarioGet 2).bytesRead = 0 ∧ (scenarioGet 3).bytesRead = 3200000 := by
    simp only [scenarioGet, Download.bytesRead, List.sum_append, List.sum_replicate,
      smul_eq_mul, List.sum_cons, List.sum_nil]
    norm_num
  have hs : ∃ c, c < 4 ∧ (scenarioGet c).failed = false := ⟨0, by decide, rfl⟩
  have _ := hpos
  refine ⟨multiDownloadJoin_totalBytes get sched, ?_, hb, ?_, ?_⟩
  · rw [measureMultiConnectionDownloadSpeed_eq, multiDownloadJoin_totalBytes,
      if_neg ((not_all_failed_iff _).2 hget)]
    rfl
  · rw [multiDownloadJoin_totalBytes, hb.1, hb.2.1, hb.2.2.1, hb.2.2.2]
  · rw [measureMultiConnectionDownloadSpeed_eq, if_neg ((not_all_failed_iff _).2 hs),
      hb.1, hb.2.1, hb.2.2.1, hb.2.2.2]
    norm_num [mbps]

/-- Witness for C7: the scenario workers under an interleaved schedule. -/
theorem multi_download_total_bytes_witness :
    (0 : ℚ) < 3 / 2
      ∧ (∃ c, c < 4 ∧ (scenarioGet c).failed = false)
      ∧ (multiDownloadJoin scenarioGet [3, 0, 2, 1, 0]).totalBytes = 8700000
      ∧ measureMultiConnectionDownloadSpeed scenarioGet [3, 0, 2, 1, 0] (3 / 2)
        = (232 / 5, none) :=
  ⟨by norm_num, ⟨0, by decide, rfl⟩,
    (multi_download_total_bytes scenarioGet [3, 0, 2, 1, 0] (3 / 2) (by norm_num)
      ⟨0, by decide, rfl⟩).2.2.2.1,
    (multi_download_total_bytes scenarioGet [3, 0, 2, 1, 0] (3 / 2) (by norm_num)
      ⟨0, by decide, rfl⟩).2.2.2.2⟩

end SpeedTest

namespace SpeedTest

/-! ## Fallback estimators -/

theorem sortFloat64s_sorted (speeds : List ℚ) :
    (sortFloat64s speeds).Sorted (fun a b => a ≤ b) :=
  List.sorted_insertionSort (fun a b : ℚ => a ≤ b) speeds

theorem sortFloat64s_perm (speeds : List ℚ) : (sortFloat64s speeds).Perm speeds :=
  List.perm_insertionSort (fun a b : ℚ => a ≤ b) speeds

theorem sortFloat64s_length (speeds : List ℚ) : (sortFloat64s speeds).length = speeds.length :=
  (sortFloat64s_perm speeds).length_eq

theorem median_index_lt (speeds : List ℚ) (hne : speeds ≠ []) :
    speeds.length / 2 < (sortFloat64s speeds).length := by
  rw [sortFloat64s_length]
  have : 0 < speeds.length := List.length_pos.2 hne
  omega

theorem medianScaled_of_ne_nil (speeds : List ℚ) (failure : GoError) (hne : speeds ≠ []) :
    ∃ medianSpeed, (sortFloat64s speeds).get? (speeds.length / 2) = some medianSpeed
      ∧ medianScaled speeds failure = some (medianSpeed * (3 / 2), none) := by
  have hlt := median_index_lt speeds hne
  have hlen : speeds.length ≠ 0 := fun h => hne (List.length_eq_zero.1 h)
  refine ⟨(sortFloat64s speeds).get ⟨speeds.length / 2, hlt⟩, List.get?_eq_get hlt, ?_⟩
  unfold medianScaled
  rw [if_neg hlen, List.get?_eq_get hlt]

theorem alternativeDownloadSpeeds_foldl (get : String → Download × ℚ) (urls : List String)
    (acc : List ℚ) :
    urls.foldl (fun speeds url =>
      match get url with
      | (.getFailed _, _) => speeds
      | (.response reads _, elapsedSeconds) =>
        let totalBytes : Nat := reads.foldl (fun totalBytes n => totalBytes + n) 0
        if totalBytes > 0 ∧ elapsedSeconds > 0 then
          speeds ++ [((totalBytes : ℚ) * 8 / 1000000) / elapsedSeconds]
        else speeds) acc
      = acc ++ urls.filterMap (fun url => downloadSourceRate (get url)) := by
  induction urls generalizing acc with
  | nil => simp
  | cons url urls ih =>
    rw [List.foldl_cons, ih]
    rcases hg : get url with ⟨d, seconds⟩
    cases d with
    | getFailed e => simp [List.filterMap_cons, hg, downloadSourceRate]
    | response reads readErr =>
      by_cases hc : reads.sum > 0 ∧ seconds > 0
      · simp [List.filterMap_cons, hg, downloadSourceRate, foldl_add_nat, hc, mbps]
      · simp [List.filterMap_cons, hg, downloadSourceRate, foldl_add_nat, hc]

theorem alternativeDownloadSpeeds_eq (get : String → Download × ℚ) :
    alternativeDownloadSpeeds get
      = alternativeDownloadUrls.filterMap (fun url => downloadSourceRate (get url)) := by
  unfold alternativeDownloadSpeeds
  rw [alternativeDownloadSpeeds_foldl]
  simp

theorem alternativeUploadSpeeds_foldl (post : String → Upload × ℚ) (urls : List String)
    (acc : List ℚ) :
    urls.foldl (fun speeds url =>
      let payloadSize : Nat := 1 * 1024 * 1024
      match post url with
      | (.newRequestFailed _, _) => speeds
      | (.doFailed _, _) => speeds
      | (.done, elapsedSeconds) =>
        if elapsedSeconds > 0 then
          speeds ++ [((payloadSize : ℚ) * 8 / 1000000) / elapsedSeconds]
        else speeds) acc
      = acc ++ urls.filterMap (fun url => uploadSourceRate (post url)) := by
  induction urls generalizing acc with
  | nil => simp
  | cons url urls ih =>
    rw [List.foldl_cons, ih]
    rcases hg : post url with ⟨u, seconds⟩
    cases u with
    | newRequestFailed e => simp [List.filterMap_cons, hg, uploadSourceRate]
    | doFailed e => simp [List.filterMap_cons, hg, uploadSourceRate]
    | done =>
      by_cases hc : seconds > 0
      · simp [List.filterMap_cons, hg, uploadSourceRate, hc, mbps]
      · simp [List.filterMap_cons, hg, uploadSourceRate, hc]

theorem alternativeUploadSpeeds_eq (post : String → Upload × ℚ) :
    alternativeUploadSpeeds post
      = alternativeUploadUrls.filterMap (fun url => uploadSourceRate (post url)) := by
  unfold alternativeUploadSpeeds
  rw [alternativeUploadSpeeds_foldl]
  simp

theorem filterMap_eq_nil_iff_forall {α β : Type} (f : α → Option β) (xs : List α) :
    xs.filterMap f = [] ↔ ∀ x ∈ xs, f x = none := by
  induction xs with
  | nil => simp
  | cons x xs ih =>
    cases h : f x <;> simp [List.filterMap_cons, h, ih]

theorem medianScaled_cases (speeds : List ℚ) (failure : GoError) :
    (speeds = [] ∧ medianScaled speeds failure = some (0, some failure))
      ∨ (speeds ≠ [] ∧ ∃ v, medianScaled speeds failure = some (v, none)) := by
  by_cases h : speeds = []
  · subst h
    exact Or.inl ⟨rfl, rfl⟩
  · obtain ⟨m, _, hm⟩ := medianScaled_of_ne_nil speeds failure h
    exact Or.inr ⟨h, m * (3 / 2), hm⟩

theorem scenarioAltGet_speeds : alternativeDownloadSpeeds scenarioAltGet = [5, 8] := by
  rw [alternativeDownloadSpeeds_eq]
  simp +decide only [alternativeDownloadUrls, scenarioAltGet, List.filterMap_cons,
    List.filterMap_nil, if_true, if_false]
  norm_num [downloadSourceRate, mbps, List.sum_replicate]

/-- C8: when at least one source yielded a rate, each fallback estimator returns, without
error, 1.5 times the element at index `n / 2` of its per-source rates sorted ascending
(an ascending rearrangement of the rates); the same holds for the shared median step on
every non-empty rate list, and the rates `[5.0, 8.0]` give median 8.0 and 12.0 Mbps. -/
theorem fallback_median_scaled (get : String → Download × ℚ) (post : String → Upload × ℚ)
    (hd : alternativeDownloadSpeeds get ≠ []) (hu : alternativeUploadSpeeds post ≠ []) :
    (∃ m, (sortFloat64s (alternativeDownloadSpeeds get)).get?
            ((alternativeDownloadSpeeds get).length / 2) = some m
        ∧ measureAlternativeDownloadSpeed get = some (m * (3 / 2), none))
      ∧ (∃ m, (sortFloat64s (alternativeUploadSpeeds post)).get?
            ((alternativeUploadSpeeds post).length / 2) = some m
        ∧ measureAlternativeUploadSpeed post = some (m * (3 / 2), none))
      ∧ (∀ speeds : List ℚ, (sortFloat64s speeds).Sorted (fun a b => a ≤ b)
          ∧ (sortFloat64s speeds).Perm speeds)
      ∧ (∀ (speeds : List ℚ) (failure : GoError), speeds ≠ [] →
          ∃ m, (sortFloat64s speeds).get? (speeds.length / 2) = some m
            ∧ medianScaled speeds failure = some (m * (3 / 2), none))
      ∧ alternativeDownloadSpeeds scenarioAltGet = [5, 8]
      ∧ (sortFloat64s [5, 8]).get? ([(5 : ℚ), 8].length / 2) = some 8
      ∧ measureAlternativeDownloadSpeed scenarioAltGet = some (12, none) := by
  refine ⟨medianScaled_of_ne_nil _ _ hd, medianScaled_of_ne_nil _ _ hu,
    fun speeds => ⟨sortFloat64s_sorted speeds, sortFloat64s_perm speeds⟩,
    fun speeds failure hne => medianScaled_of_ne_nil speeds failure hne,
    scenarioAltGet_speeds, by decide, ?_⟩
  have hm : (sortFloat64s [5, 8]).get? ([(5 : ℚ), 8].length / 2) = some 8 := by decide
  unfold measureAlternativeDownloadSpeed medianScaled
  rw [scenarioAltGet_speeds, hm]
  norm_num

/-- Witness for C8: the scenario download sources and two upload sources answering in
1 s. -/
theorem fallback_median_scaled_witness :
    alternativeDownloadSpeeds scenarioAltGet ≠ []
      ∧ alternativeUploadSpeeds steadyAltPost ≠ []
      ∧ (∃ m, (sortFloat64s (alternativeDownloadSpeeds scenarioAltGet)).get?
            ((alternativeDownloadSpeeds scenarioAltGet).length / 2) = some m
        ∧ measureAlternativeDownloadSpeed scenarioAltGet = some (m * (3 / 2), none)) :=
  ⟨by rw [scenarioAltGet_speeds]; decide, by decide,
    (fallback_median_scaled scenarioAltGet steadyAltPost
      (by rw [scenarioAltGet_speeds]; decide) (by decide)).1⟩

/-- C9, as stated, fails: when the request to the first source succeeds with an empty body
and the other two requests fail, one request has succeeded and yet
`measureAlternativeDownloadSpeed` returns "all alternative download tests failed". -/
theorem fallback_download_counterexample :
    (∃ url ∈ alternativeDownloadUrls, ∃ reads readErr seconds,
        emptyAltGet url = (.response reads readErr, seconds))
      ∧ measureAlternativeDownloadSpeed emptyAltGet
        = some (0, some "all alternative download tests failed") := by
  constructor
  · exact ⟨_, List.mem_cons_self _ _, [0], none, 1 / 10, rfl⟩
  · have h : alternativeDownloadSpeeds emptyAltGet = [] := by
      rw [alternativeDownloadSpeeds_eq]
      simp +decide only [alternativeDownloadUrls, emptyAltGet, List.filterMap_cons,
        List.filterMap_nil, if_true, if_false]
    unfold measureAlternativeDownloadSpeed
    rw [h]
    rfl

/-- C9, amended: `measureAlternativeDownloadSpeed` never panics; it returns
"all alternative download tests failed" exactly when no source yielded a rate, a source
yielding a rate when its request succeeded and a positive number of bytes was read in a
positive elapsed time; otherwise it returns a rate and no error, and the index `n / 2`
into the sorted rate list is in bounds whenever the rate list is non-empty. -/
theorem fallback_download_failure_amended (get : String → Download × ℚ) :
    (((∀ url ∈ alternativeDownloadUrls, downloadSourceRate (get url) = none)
          ∧ measureAlternativeDownloadSpeed get
            = some (0, some "all alternative download tests failed"))
        ∨ ((∃ url ∈ alternativeDownloadUrls, ∃ rate, downloadSourceRate (get url) = some rate)
          ∧ ∃ v, measureAlternativeDownloadSpeed get = some (v, none)))
      ∧ (alternativeDownloadSpeeds get ≠ [] →
          (alternativeDownloadSpeeds get).length / 2
            < (sortFloat64s (alternativeDownloadSpeeds get)).length) := by
  refine ⟨?_, median_index_lt _⟩
  unfold measureAlternativeDownloadSpeed
  rcases medianScaled_cases (alternativeDownloadSpeeds get)
    "all alternative download tests failed" with ⟨he, hr⟩ | ⟨hne, hr⟩
  · left
    refine ⟨?_, hr⟩
    rw [alternativeDownloadSpeeds_eq] at he
    exact (filterMap_eq_nil_iff_forall _ _).1 he
  · right
    refine ⟨?_, hr⟩
    rw [alternativeDownloadSpeeds_eq] at hne
    by_contra hno
    apply hne
    apply (filterMap_eq_nil_iff_forall _ _).2
    intro url hurl
    cases hrate : downloadSourceRate (get url) with
    | none => rfl
    | some rate => exact absurd ⟨url, hurl, rate, hrate⟩ hno

/-- Witness for the amended C9: the scenario sources yield rates, so the index is in
bounds. -/
theorem fallback_download_failure_amended_witness :
    alternativeDownloadSpeeds scenarioAltGet ≠ []
      ∧ (alternativeDownloadSpeeds scenarioAltGet).length / 2
        < (sortFloat64s (alternativeDownloadSpeeds scenarioAltGet)).length :=
  ⟨by rw [scenarioAltGet_speeds]; decide,
    (fallback_download_failure_amended scenarioAltGet).2 (by rw [scenarioAltGet_speeds]; decide)⟩

/-! ## Orchestrator: claims -/

theorem measureAlternativeDownloadSpeed_cases (get : String → Download × ℚ) :
    measureAlternativeDownloadSpeed get = some (0, some "all alternative download tests failed")
      ∨ ∃ v, measureAlternativeDownloadSpeed get = some (v, none) := by
  unfold measureAlternativeDownloadSpeed
  rcases medianScaled_cases (alternativeDownloadSpeeds get)
    "all alternative download tests failed" with ⟨_, h⟩ | ⟨_, h⟩
  · exact Or.inl h
  · exact Or.inr h

theorem measureAlternativeUploadSpeed_cases (post : String → Upload × ℚ) :
    measureAlternativeUploadSpeed post = some (0, some "all alternative upload tests failed")
      ∨ ∃ v, measureAlternativeUploadSpeed post = some (v, none) := by
  unfold measureAlternativeUploadSpeed
  rcases medianScaled_cases (alternativeUploadSpeeds post)
    "all alternative upload tests failed" with ⟨_, h⟩ | ⟨_, h⟩
  · exact Or.inl h
  · exact Or.inr h

/-- C10: for every outcome of the network and of the random source and for both values
of the connection-mode flag, `performSpeedTest` returns (it does not panic) a nil error
together with four metrics, each of which is the value of the first tier that succeeded
for it: the primary estimator, else the fallback estimator, else the synthetic value. -/
theorem performSpeedTest_always_populated (net : Network) (rnd : Random)
    (isMultiConnection : Bool) :
    ∃ downloadSpeed uploadSpeed ping jitter,
      performSpeedTest net rnd isMultiConnection
          = some (downloadSpeed, uploadSpeed, ping, jitter, none)
        ∧ (((measurePingAndJitter net.dial).2.2 = none
              ∧ ping = (measurePingAndJitter net.dial).1
              ∧ jitter = (measurePingAndJitter net.dial).2.1)
            ∨ ((measurePingAndJitter net.dial).2.2 ≠ none
              ∧ (measureAlternativePing net.headProbe).2.2 = none
              ∧ ping = (measureAlternativePing net.headProbe).1
              ∧ jitter = (measureAlternativePing net.headProbe).2.1)
            ∨ ((measurePingAndJitter net.dial).2.2 ≠ none
              ∧ (measureAlternativePing net.headProbe).2.2 ≠ none
              ∧ ping = ((15 + rnd.pingIntn.val : Nat) : ℚ)
              ∧ jitter = ((2 + rnd.jitterIntn.val : Nat) : ℚ)))
        ∧ (((if isMultiConnection then
                measureMultiConnectionDownloadSpeed net.multiDownload net.multiDownloadSched
                  net.multiDownloadSeconds
              else measureDownloadSpeed net.download net.downloadSeconds)
              = (downloadSpeed, none))
            ∨ ((if isMultiConnection then
                measureMultiConnectionDownloadSpeed net.multiDownload net.multiDownloadSched
                  net.multiDownloadSeconds
              else measureDownloadSpeed net.download net.downloadSeconds).2 ≠ none
              ∧ measureAlternativeDownloadSpeed net.altDownload = some (downloadSpeed, none))
            ∨ ((if isMultiConnection then
                measureMultiConnectionDownloadSpeed net.multiDownload net.multiDownloadSched
                  net.multiDownloadSeconds
              else measureDownloadSpeed net.download net.downloadSeconds).2 ≠ none
              ∧ (∃ v e, measureAlternativeDownloadSpeed net.altDownload = some (v, some e))
              ∧ downloadSpeed = 80 + rnd.downloadFloat.val * 40))
        ∧ (((if isMultiConnection then
                measureMultiConnectionUploadSpeed net.multiUpload net.multiUploadSched
                  net.multiUploadSeconds
              else measureUploadSpeed net.upload net.uploadSeconds)
              = (uploadSpeed, none))
            ∨ ((if isMultiConnection then
                measureMultiConnectionUploadSpeed net.multiUpload net.multiUploadSched
                  net.multiUploadSeconds
              else measureUploadSpeed net.upload net.uploadSeconds).2 ≠ none
              ∧ measureAlternativeUploadSpeed net.altUpload = some (uploadSpeed, none))
            ∨ ((if isMultiConnection then
                measureMultiConnectionUploadSpeed net.multiUpload net.multiUploadSched
                  net.multiUploadSeconds
              else measureUploadSpeed net.upload net.uploadSeconds).2 ≠ none
              ∧ (∃ v e, measureAlternativeUploadSpeed net.altUpload = some (v, some e))
              ∧ uploadSpeed = 5 + rnd.uploadFloat.val * 15)) := by
  unfold performSpeedTest
  generalize measurePingAndJitter net.dial = r1
  generalize measureAlternativePing net.headProbe = r2
  generalize (if isMultiConnection then
      measureMultiConnectionDownloadSpeed net.multiDownload net.multiDownloadSched
        net.multiDownloadSeconds
    else measureDownloadSpeed net.download net.downloadSeconds) = r3
  generalize (if isMultiConnection then
      measureMultiConnectionUploadSpeed net.multiUpload net.multiUploadSched
        net.multiUploadSeconds
    else measureUploadSpeed net.upload net.uploadSeconds) = r4
  rcases r1 with ⟨p1, j1, _ | e1⟩ <;> rcases r2 with ⟨p2, j2, _ | e2⟩ <;>
    rcases r3 with ⟨d3, _ | e3⟩ <;> rcases r4 with ⟨u4, _ | e4⟩ <;>
    rcases measureAlternativeDownloadSpeed_cases net.altDownload with hd | ⟨vd, hd⟩ <;>
    rcases measureAlternativeUploadSpeed_cases net.altUpload with hu | ⟨vu, hu⟩ <;>
    (simp only [hd, hu]; refine ⟨_, _, _, _, rfl, ?_⟩; simp)

end SpeedTest

namespace SpeedTest

/-! ## Orchestrator: tiers and synthetic values -/

/-- The nested branches of `performSpeedTest` written tier by tier. -/
theorem performSpeedTestLogged_eq (net : Network) (rnd : Random) (isMultiConnection : Bool) :
    performSpeedTestLogged net rnd isMultiConnection
      = match (throughputTier Call.measureAlternativeDownloadSpeed Call.syntheticDownload
            (selectedDownload net isMultiConnection)
            (measureAlternativeDownloadSpeed net.altDownload)
            (80 + rnd.downloadFloat.val * 40)).1 with
        | none =>
          ((latencyTier (measurePingAndJitter net.dial)
              (measureAlternativePing net.headProbe) rnd).2.2
            ++ [primaryDownloadCall isMultiConnection]
            ++ (throughputTier Call.measureAlternativeDownloadSpeed Call.syntheticDownload
                (selectedDownload net isMultiConnection)
                (measureAlternativeDownloadSpeed net.altDownload)
                (80 + rnd.downloadFloat.val * 40)).2, none)
        | some downloadSpeed =>
          ((latencyTier (measurePingAndJitter net.dial)
              (measureAlternativePing net.headProbe) rnd).2.2
            ++ [primaryDownloadCall isMultiConnection]
            ++ (throughputTier Call.measureAlternativeDownloadSpeed Call.syntheticDownload
                (selectedDownload net isMultiConnection)
                (measureAlternativeDownloadSpeed net.altDownload)
                (80 + rnd.downloadFloat.val * 40)).2
            ++ [primaryUploadCall isMultiConnection]
            ++ (throughputTier Call.measureAlternativeUploadSpeed Call.syntheticUpload
                (selectedUpload net isMultiConnection)
                (measureAlternativeUploadSpeed net.altUpload)
                (5 + rnd.uploadFloat.val * 15)).2,
            (throughputTier Call.measureAlternativeUploadSpeed Call.syntheticUpload
                (selectedUpload net isMultiConnection)
                (measureAlternativeUploadSpeed net.altUpload)
                (5 + rnd.uploadFloat.val * 15)).1.map (fun uploadSpeed =>
              (downloadSpeed, uploadSpeed,
                (latencyTier (measurePingAndJitter net.dial)
                  (measureAlternativePing net.headProbe) rnd).1,
                (latencyTier (measurePingAndJitter net.dial)
                  (measureAlternativePing net.headProbe) rnd).2.1, none))) := by
  unfold performSpeedTestLogged selectedDownload selectedUpload primaryDownloadCall
    primaryUploadCall latencyTier throughputTier
  generalize measurePingAndJitter net.dial = r1
  generalize measureAlternativePing net.headProbe = r2
  generalize measureAlternativeDownloadSpeed net.altDownload = ad
  generalize measureAlternativeUploadSpeed net.altUpload = au
  cases isMultiConnection
  · generalize measureDownloadSpeed net.download net.downloadSeconds = r3
    generalize measureUploadSpeed net.upload net.uploadSeconds = r4
    rcases r1 with ⟨p1, j1, _ | e1⟩ <;> rcases r2 with ⟨p2, j2, _ | e2⟩ <;>
      rcases r3 with ⟨d3, _ | e3⟩ <;> rcases ad with _ | ⟨vd, _ | ed⟩ <;>
      rcases r4 with ⟨u4, _ | e4⟩ <;> rcases au with _ | ⟨vu, _ | eu⟩ <;> rfl
  · generalize measureMultiConnectionDownloadSpeed net.multiDownload net.multiDownloadSched
      net.multiDownloadSeconds = r3
    generalize measureMultiConnectionUploadSpeed net.multiUpload net.multiUploadSched
      net.multiUploadSeconds = r4
    rcases r1 with ⟨p1, j1, _ | e1⟩ <;> rcases r2 with ⟨p2, j2, _ | e2⟩ <;>
      rcases r3 with ⟨d3, _ | e3⟩ <;> rcases ad with _ | ⟨vd, _ | ed⟩ <;>
      rcases r4 with ⟨u4, _ | e4⟩ <;> rcases au with _ | ⟨vu, _ | eu⟩ <;> rfl

theorem performSpeedTestLogged_snd (net : Network) (rnd : Random) (isMultiConnection : Bool) :
    (performSpeedTestLogged net rnd isMultiConnection).2
      = performSpeedTest net rnd isMultiConnection := by
  unfold performSpeedTestLogged performSpeedTest
  generalize measurePingAndJitter net.dial = r1
  generalize measureAlternativePing net.headProbe = r2
  generalize measureAlternativeDownloadSpeed net.altDownload = ad
  generalize measureAlternativeUploadSpeed net.altUpload = au
  cases isMultiConnection
  · generalize measureDownloadSpeed net.download net.downloadSeconds = r3
    generalize measureUploadSpeed net.upload net.uploadSeconds = r4
    rcases r1 with ⟨p1, j1, _ | e1⟩ <;> rcases r2 with ⟨p2, j2, _ | e2⟩ <;>
      rcases r3 with ⟨d3, _ | e3⟩ <;> rcases ad with _ | ⟨vd, _ | ed⟩ <;>
      rcases r4 with ⟨u4, _ | e4⟩ <;> rcases au with _ | ⟨vu, _ | eu⟩ <;> rfl
  · generalize measureMultiConnectionDownloadSpeed net.multiDownload net.multiDownloadSched
      net.multiDownloadSeconds = r3
    generalize measureMultiConnectionUploadSpeed net.multiUpload net.multiUploadSched
      net.multiUploadSeconds = r4
    rcases r1 with ⟨p1, j1, _ | e1⟩ <;> rcases r2 with ⟨p2, j2, _ | e2⟩ <;>
      rcases r3 with ⟨d3, _ | e3⟩ <;> rcases ad with _ | ⟨vd, _ | ed⟩ <;>
      rcases r4 with ⟨u4, _ | e4⟩ <;> rcases au with _ | ⟨vu, _ | eu⟩ <;> rfl

theorem mem_latencyTier (c : Call) (primary alternative : ℚ × ℚ × Option GoError)
    (rnd : Random) :
    c ∈ (latencyTier primary alternative rnd).2.2
      ↔ c = Call.measurePingAndJitter
        ∨ (c = Call.measureAlternativePing ∧ primary.2.2 ≠ none)
        ∨ (c = Call.syntheticLatency ∧ primary.2.2 ≠ none ∧ alternative.2.2 ≠ none) := by
  unfold latencyTier
  by_cases h1 : primary.2.2 = none
  · simp [h1]
  · by_cases h2 : alternative.2.2 = none
    · simp [h1, h2]
    · simp [h1, h2]

theorem latencyTier_sublist (primary alternative : ℚ × ℚ × Option GoError) (rnd : Random) :
    (latencyTier primary alternative rnd).2.2.Sublist
      [Call.measurePingAndJitter, Call.measureAlternativePing, Call.syntheticLatency] := by
  unfold latencyTier
  by_cases h1 : primary.2.2 = none
  · simp [h1]
  · by_cases h2 : alternative.2.2 = none
    · simp [h1, h2]
    · simp [h1, h2]

theorem mem_throughputTier (c altCall synthCall : Call) (primary : ℚ × Option GoError)
    (alternative : Option (ℚ × Option GoError)) (synthetic : ℚ) :
    c ∈ (throughputTier altCall synthCall primary alternative synthetic).2
      ↔ (c = altCall ∧ primary.2 ≠ none)
        ∨ (c = synthCall ∧ primary.2 ≠ none ∧ ∃ v e, alternative = some (v, some e)) := by
  unfold throughputTier
  by_cases h1 : primary.2 = none
  · simp [h1]
  · rcases alternative with _ | ⟨v, _ | e⟩ <;> simp [h1]

theorem throughputTier_sublist (altCall synthCall : Call) (primary : ℚ × Option GoError)
    (alternative : Option (ℚ × Option GoError)) (synthetic : ℚ) :
    (throughputTier altCall synthCall primary alternative synthetic).2.Sublist
      [altCall, synthCall] := by
  unfold throughputTier
  by_cases h1 : primary.2 = none
  · simp [h1]
  · rcases alternative with _ | ⟨v, _ | e⟩ <;> simp [h1]

/-- The value produced by the tiers of one throughput metric when the fallback estimator
does not panic. -/
theorem throughputTier_fst (altCall synthCall : Call) (primary : ℚ × Option GoError)
    (alternative : Option (ℚ × Option GoError)) (synthetic : ℚ) (hne : alternative ≠ none) :
    ∃ speed, (throughputTier altCall synthCall primary alternative synthetic).1 = some speed
      ∧ (primary.2 = none → speed = primary.1)
      ∧ (primary.2 ≠ none → ∀ v, alternative = some (v, none) → speed = v)
      ∧ (primary.2 ≠ none → (∃ v e, alternative = some (v, some e)) → speed = synthetic) := by
  unfold throughputTier
  by_cases h1 : primary.2 = none
  · exact ⟨primary.1, by simp [h1], fun _ => rfl, fun h => absurd h1 h, fun h => absurd h1 h⟩
  · rcases alternative with _ | ⟨v, _ | e⟩
    · exact absurd rfl hne
    · refine ⟨v, by simp [h1], fun h => absurd h h1, ?_, ?_⟩
      · intro _ w hw
        simp only [Option.some.injEq, Prod.mk.injEq, and_true] at hw
        exact hw
      · rintro _ ⟨w, e, hw⟩
        simp at hw
    · refine ⟨synthetic, by simp [h1], fun h => absurd h h1, ?_, fun _ _ => rfl⟩
      intro _ w hw
      simp at hw

theorem latencyTier_values (primary alternative : ℚ × ℚ × Option GoError) (rnd : Random) :
    (primary.2.2 = none →
        (latencyTier primary alternative rnd).1 = primary.1
          ∧ (latencyTier primary alternative rnd).2.1 = primary.2.1)
      ∧ (primary.2.2 ≠ none → alternative.2.2 = none →
        (latencyTier primary alternative rnd).1 = alternative.1
          ∧ (latencyTier primary alternative rnd).2.1 = alternative.2.1)
      ∧ (primary.2.2 ≠ none → alternative.2.2 ≠ none →
        (latencyTier primary alternative rnd).1 = ((15 + rnd.pingIntn.val : Nat) : ℚ)
          ∧ (latencyTier primary alternative rnd).2.1 = ((2 + rnd.jitterIntn.val : Nat) : ℚ)) := by
  unfold latencyTier
  refine ⟨fun h => by simp [h], fun h1 h2 => by simp [h1, h2], fun h1 h2 => by simp [h1, h2]⟩

theorem measureAlternativeDownloadSpeed_ne_none (get : String → Download × ℚ) :
    measureAlternativeDownloadSpeed get ≠ none := by
  rcases measureAlternativeDownloadSpeed_cases get with h | ⟨v, h⟩ <;> simp [h]

theorem measureAlternativeUploadSpeed_ne_none (post : String → Upload × ℚ) :
    measureAlternativeUploadSpeed post ≠ none := by
  rcases measureAlternativeUploadSpeed_cases post with h | ⟨v, h⟩ <;> simp [h]

/-- C11: `performSpeedTest` invokes each estimator at most once; the primary throughput
variant is the multi-connection estimator iff the flag is true and the single-connection
one otherwise, the other variant not being invoked; the fallback estimator of a metric is
invoked iff its selected primary failed; the synthetic value is used iff both failed; and
each metric is the unchanged value of the first tier that succeeded. -/
theorem performSpeedTest_first_successful_tier (net : Network) (rnd : Random)
    (isMultiConnection : Bool) :
    (performSpeedTestLogged net rnd isMultiConnection).2
        = performSpeedTest net rnd isMultiConnection
      ∧ (performSpeedTestLogged net rnd isMultiConnection).1.Nodup
      ∧ Call.measurePingAndJitter ∈ (performSpeedTestLogged net rnd isMultiConnection).1
      ∧ (Call.measureAlternativePing ∈ (performSpeedTestLogged net rnd isMultiConnection).1
          ↔ (measurePingAndJitter net.dial).2.2 ≠ none)
      ∧ (Call.syntheticLatency ∈ (performSpeedTestLogged net rnd isMultiConnection).1
          ↔ (measurePingAndJitter net.dial).2.2 ≠ none
            ∧ (measureAlternativePing net.headProbe).2.2 ≠ none)
      ∧ (Call.measureMultiConnectionDownloadSpeed
            ∈ (performSpeedTestLogged net rnd isMultiConnection).1
          ↔ isMultiConnection = true)
      ∧ (Call.measureDownloadSpeed ∈ (performSpeedTestLogged net rnd isMultiConnection).1
          ↔ isMultiConnection = false)
      ∧ (Call.measureAlternativeDownloadSpeed
            ∈ (performSpeedTestLogged net rnd isMultiConnection).1
          ↔ (selectedDownload net isMultiConnection).2 ≠ none)
      ∧ (Call.syntheticDownload ∈ (performSpeedTestLogged net rnd isMultiConnection).1
          ↔ (selectedDownload net isMultiConnection).2 ≠ none
            ∧ ∃ v e, measureAlternativeDownloadSpeed net.altDownload = some (v, some e))
      ∧ (Call.measureMultiConnectionUploadSpeed
            ∈ (performSpeedTestLogged net rnd isMultiConnection).1
          ↔ isMultiConnection = true)
      ∧ (Call.measureUploadSpeed ∈ (performSpeedTestLogged net rnd isMultiConnection).1
          ↔ isMultiConnection = false)
      ∧ (Call.measureAlternativeUploadSpeed
            ∈ (performSpeedTestLogged net rnd isMultiConnection).1
          ↔ (selectedUpload net isMultiConnection).2 ≠ none)
      ∧ (Call.syntheticUpload ∈ (performSpeedTestLogged net rnd isMultiConnection).1
          ↔ (selectedUpload net isMultiConnection).2 ≠ none
            ∧ ∃ v e, measureAlternativeUploadSpeed net.altUpload = some (v, some e))
      ∧ ∃ downloadSpeed uploadSpeed ping jitter,
          performSpeedTest net rnd isMultiConnection
              = some (downloadSpeed, uploadSpeed, ping, jitter, none)
            ∧ ((measurePingAndJitter net.dial).2.2 = none →
                ping = (measurePingAndJitter net.dial).1
                  ∧ jitter = (measurePingAndJitter net.dial).2.1)
            ∧ ((measurePingAndJitter net.dial).2.2 ≠ none →
                (measureAlternativePing net.headProbe).2.2 = none →
                ping = (measureAlternativePing net.headProbe).1
                  ∧ jitter = (measureAlternativePing net.headProbe).2.1)
            ∧ ((measurePingAndJitter net.dial).2.2 ≠ none →
                (measureAlternativePing net.headProbe).2.2 ≠ none →
                ping = ((15 + rnd.pingIntn.val : Nat) : ℚ)
                  ∧ jitter = ((2 + rnd.jitterIntn.val : Nat) : ℚ))
            ∧ ((selectedDownload net isMultiConnection).2 = none →
                downloadSpeed = (selectedDownload net isMultiConnection).1)
            ∧ ((selectedDownload net isMultiConnection).2 ≠ none →
                ∀ v, measureAlternativeDownloadSpeed net.altDownload = some (v, none) →
                  downloadSpeed = v)
            ∧ ((selectedDownload net isMultiConnection).2 ≠ none →
                (∃ v e, measureAlternativeDownloadSpeed net.altDownload = some (v, some e)) →
                  downloadSpeed = 80 + rnd.downloadFloat.val * 40)
            ∧ ((selectedUpload net isMultiConnection).2 = none →
                uploadSpeed = (selectedUpload net isMultiConnection).1)
            ∧ ((selectedUpload net isMultiConnection).2 ≠ none →
                ∀ v, measureAlternativeUploadSpeed net.altUpload = some (v, none) →
                  uploadSpeed = v)
            ∧ ((selectedUpload net isMultiConnection).2 ≠ none →
                (∃ v e, measureAlternativeUploadSpeed net.altUpload = some (v, some e)) →
                  uploadSpeed = 5 + rnd.uploadFloat.val * 15) := by
  obtain ⟨d, hd, hd1, hd2, hd3⟩ := throughputTier_fst Call.measureAlternativeDownloadSpeed
    Call.syntheticDownload (selectedDownload net isMultiConnection)
    (measureAlternativeDownloadSpeed net.altDownload) (80 + rnd.downloadFloat.val * 40)
    (measureAlternativeDownloadSpeed_ne_none _)
  obtain ⟨u, hu, hu1, hu2, hu3⟩ := throughputTier_fst Call.measureAlternativeUploadSpeed
    Call.syntheticUpload (selectedUpload net isMultiConnection)
    (measureAlternativeUploadSpeed net.altUpload) (5 + rnd.uploadFloat.val * 15)
    (measureAlternativeUploadSpeed_ne_none _)
  have hL := performSpeedTestLogged_eq net rnd isMultiConnection
  rw [hd] at hL
  simp only [hu, Option.map_some'] at hL
  have hsnd := performSpeedTestLogged_snd net rnd isMultiConnection
  rw [hL] at hsnd
  have hmemL := fun c => mem_latencyTier c (measurePingAndJitter net.dial)
    (measureAlternativePing net.headProbe) rnd
  have hmemD := fun c => mem_throughputTier c Call.measureAlternativeDownloadSpeed
    Call.syntheticDownload (selectedDownload net isMultiConnection)
    (measureAlternativeDownloadSpeed net.altDownload) (80 + rnd.downloadFloat.val * 40)
  have hmemU := fun c => mem_throughputTier c Call.measureAlternativeUploadSpeed
    Call.syntheticUpload (selectedUpload net isMultiConnection)
    (measureAlternativeUploadSpeed net.altUpload) (5 + rnd.uploadFloat.val * 15)
  have hvals := latencyTier_values (measurePingAndJitter net.dial)
    (measureAlternativePing net.headProbe) rnd
  rw [hL]
  refine ⟨hsnd, ?_, ?_, ?_, ?_, ?_, ?_, ?_, ?_, ?_, ?_, ?_, ?_,
    ⟨d, u, _, _, hsnd.symm, hvals.1, hvals.2.1, hvals.2.2, hd1, hd2, hd3, hu1, hu2, hu3⟩⟩
  · refine List.Nodup.sublist
      ((((latencyTier_sublist _ _ _).append (List.Sublist.refl _)).append
        (throughputTier_sublist _ _ _ _ _)).append (List.Sublist.refl _)
        |>.append (throughputTier_sublist _ _ _ _ _)) ?_
    cases isMultiConnection <;> decide
  all_goals
    simp only [List.mem_append, List.mem_singleton, hmemL, hmemD, hmemU, primaryDownloadCall,
      primaryUploadCall]
    cases isMultiConnection <;> simp

/-- The metrics returned by `performSpeedTest`, tier by tier. -/
theorem performSpeedTest_values (net : Network) (rnd : Random) (isMultiConnection : Bool) :
    ∃ downloadSpeed uploadSpeed ping jitter,
      performSpeedTest net rnd isMultiConnection
          = some (downloadSpeed, uploadSpeed, ping, jitter, none)
        ∧ ((measurePingAndJitter net.dial).2.2 ≠ none →
            (measureAlternativePing net.headProbe).2.2 ≠ none →
            ping = ((15 + rnd.pingIntn.val : Nat) : ℚ)
              ∧ jitter = ((2 + rnd.jitterIntn.val : Nat) : ℚ))
        ∧ ((selectedDownload net isMultiConnection).2 ≠ none →
            (∃ v e, measureAlternativeDownloadSpeed net.altDownload = some (v, some e)) →
              downloadSpeed = 80 + rnd.downloadFloat.val * 40)
        ∧ ((selectedUpload net isMultiConnection).2 ≠ none →
            (∃ v e, measureAlternativeUploadSpeed net.altUpload = some (v, some e)) →
              uploadSpeed = 5 + rnd.uploadFloat.val * 15) := by
  obtain ⟨d, hd, _, _, hd3⟩ := throughputTier_fst Call.measureAlternativeDownloadSpeed
    Call.syntheticDownload (selectedDownload net isMultiConnection)
    (measureAlternativeDownloadSpeed net.altDownload) (80 + rnd.downloadFloat.val * 40)
    (measureAlternativeDownloadSpeed_ne_none _)
  obtain ⟨u, hu, _, _, hu3⟩ := throughputTier_fst Call.measureAlternativeUploadSpeed
    Call.syntheticUpload (selectedUpload net isMultiConnection)
    (measureAlternativeUploadSpeed net.altUpload) (5 + rnd.uploadFloat.val * 15)
    (measureAlternativeUploadSpeed_ne_none _)
  have hL := performSpeedTestLogged_eq net rnd isMultiConnection
  rw [hd] at hL
  simp only [hu, Option.map_some'] at hL
  have hsnd := performSpeedTestLogged_snd net rnd isMultiConnection
  rw [hL] at hsnd
  exact ⟨d, u, _, _, hsnd.symm,
    (latencyTier_values (measurePingAndJitter net.dial)
      (measureAlternativePing net.headProbe) rnd).2.2, hd3, hu3⟩

end SpeedTest

namespace SpeedTest

/-! ## Result assembler and store: claims -/

/-- The result `RunSpeedTest` assembles from the metrics and its arguments. -/
theorem RunSpeedTest_eq {σ : Type} (speedTestRepo : SpeedTestRepository σ) (store : σ)
    (net : Network) (rnd : Random) (unixNano createdAt : Int) (userID : String)
    (ipInfo : StringMap) (isMultiConnection : Bool) :
    ∃ downloadSpeed uploadSpeed ping jitter,
      performSpeedTest net rnd isMultiConnection
          = some (downloadSpeed, uploadSpeed, ping, jitter, none)
        ∧ RunSpeedTest speedTestRepo store net rnd unixNano createdAt userID ipInfo
            isMultiConnection
          = some
            { result := some
                { ID := toString unixNano, UserID := userID, DownloadSpeed := downloadSpeed,
                  UploadSpeed := uploadSpeed, Ping := ping, Jitter := jitter,
                  ISP := ipInfo.index "isp", IPAddress := ipInfo.index "ip",
                  Country := ipInfo.index "country", Region := ipInfo.index "region",
                  CreatedAt := createdAt }
              err := (speedTestRepo.SaveResult store
                { ID := toString unixNano, UserID := userID, DownloadSpeed := downloadSpeed,
                  UploadSpeed := uploadSpeed, Ping := ping, Jitter := jitter,
                  ISP := ipInfo.index "isp", IPAddress := ipInfo.index "ip",
                  Country := ipInfo.index "country", Region := ipInfo.index "region",
                  CreatedAt := createdAt }).2
              store := (speedTestRepo.SaveResult store
                { ID := toString unixNano, UserID := userID, DownloadSpeed := downloadSpeed,
                  UploadSpeed := uploadSpeed, Ping := ping, Jitter := jitter,
                  ISP := ipInfo.index "isp", IPAddress := ipInfo.index "ip",
                  Country := ipInfo.index "country", Region := ipInfo.index "region",
                  CreatedAt := createdAt }).1
              saved :=
                [{ ID := toString unixNano, UserID := userID, DownloadSpeed := downloadSpeed,
                   UploadSpeed := uploadSpeed, Ping := ping, Jitter := jitter,
                   ISP := ipInfo.index "isp", IPAddress := ipInfo.index "ip",
                   Country := ipInfo.index "country", Region := ipInfo.index "region",
                   CreatedAt := createdAt }] } := by
  obtain ⟨d, u, p, j, hres, _⟩ := performSpeedTest_values net rnd isMultiConnection
  refine ⟨d, u, p, j, hres, ?_⟩
  unfold RunSpeedTest
  rw [hres]

/-- C13: `RunSpeedTest` never panics and never returns an estimator failure: it calls
`SaveResult` exactly once, on the store it was given and with the result it returns, and
its error is exactly the error of that call, so it is non-nil iff `SaveResult` failed. -/
theorem runSpeedTest_error_iff_save_error {σ : Type} (speedTestRepo : SpeedTestRepository σ)
    (store : σ) (net : Network) (rnd : Random) (unixNano createdAt : Int) (userID : String)
    (ipInfo : StringMap) (isMultiConnection : Bool) :
    ∃ out result,
      RunSpeedTest speedTestRepo store net rnd unixNano createdAt userID ipInfo
          isMultiConnection = some out
        ∧ out.result = some result
        ∧ out.saved = [result]
        ∧ out.err = (speedTestRepo.SaveResult store result).2
        ∧ out.store = (speedTestRepo.SaveResult store result).1
        ∧ (out.err ≠ none ↔ (speedTestRepo.SaveResult store result).2 ≠ none) := by
  obtain ⟨d, u, p, j, _, hrun⟩ := RunSpeedTest_eq speedTestRepo store net rnd unixNano
    createdAt userID ipInfo isMultiConnection
  exact ⟨_, _, hrun, rfl, rfl, rfl, rfl, Iff.rfl⟩

/-- C14: for every user ID and metadata map the result assembled by `RunSpeedTest` carries
the user ID, the map entries under "ip", "isp", "country" and "region" (the empty string
for a missing key, in particular for the empty map) and exactly the four metrics returned
by `performSpeedTest`. -/
theorem runSpeedTest_result_fields {σ : Type} (speedTestRepo : SpeedTestRepository σ)
    (store : σ) (net : Network) (rnd : Random) (unixNano createdAt : Int) (userID : String)
    (ipInfo : StringMap) (isMultiConnection : Bool) :
    ∃ out result downloadSpeed uploadSpeed ping jitter,
      RunSpeedTest speedTestRepo store net rnd unixNano createdAt userID ipInfo
          isMultiConnection = some out
        ∧ out.result = some result
        ∧ performSpeedTest net rnd isMultiConnection
          = some (downloadSpeed, uploadSpeed, ping, jitter, none)
        ∧ result.UserID = userID
        ∧ result.IPAddress = (ipInfo "ip").getD ""
        ∧ result.ISP = (ipInfo "isp").getD ""
        ∧ result.Country = (ipInfo "country").getD ""
        ∧ result.Region = (ipInfo "region").getD ""
        ∧ result.DownloadSpeed = downloadSpeed
        ∧ result.UploadSpeed = uploadSpeed
        ∧ result.Ping = ping
        ∧ result.Jitter = jitter
        ∧ (∃ outEmpty resultEmpty,
            RunSpeedTest speedTestRepo store net rnd unixNano createdAt userID emptyIpInfo
                isMultiConnection = some outEmpty
              ∧ outEmpty.result = some resultEmpty
              ∧ resultEmpty.UserID = userID
              ∧ resultEmpty.IPAddress = "" ∧ resultEmpty.ISP = ""
              ∧ resultEmpty.Country = "" ∧ resultEmpty.Region = "") := by
  obtain ⟨d, u, p, j, hres, hrun⟩ := RunSpeedTest_eq speedTestRepo store net rnd unixNano
    createdAt userID ipInfo isMultiConnection
  obtain ⟨d2, u2, p2, j2, _, hrun2⟩ := RunSpeedTest_eq speedTestRepo store net rnd unixNano
    createdAt userID emptyIpInfo isMultiConnection
  exact ⟨_, _, d, u, p, j, hrun, rfl, hres, rfl, rfl, rfl, rfl, rfl, rfl, rfl, rfl, rfl,
    _, _, hrun2, rfl, rfl, rfl, rfl, rfl, rfl⟩

theorem mapLookup_mapAssign_self (m : List (String × SpeedTestResult)) (key : String)
    (value : SpeedTestResult) : mapLookup (mapAssign m key value) key = some value := by
  simp [mapLookup, mapAssign]

theorem find_filter_ne (m : List (String × SpeedTestResult)) (key id : String)
    (hne : id ≠ key) :
    (m.filter (fun kv => kv.1 ≠ key)).find? (fun kv => kv.1 = id)
      = m.find? (fun kv => kv.1 = id) := by
  induction m with
  | nil => rfl
  | cons kv m ih =>
    by_cases hk : kv.1 = key
    · have hid : ¬ kv.1 = id := fun h => hne (h ▸ hk)
      rw [List.filter_cons_of_neg (by simpa using hk),
        List.find?_cons_of_neg _ (by simpa using hid), ih]
    · rw [List.filter_cons_of_pos (by simpa using hk)]
      by_cases hid : kv.1 = id
      · rw [List.find?_cons_of_pos _ (by simpa using hid),
          List.find?_cons_of_pos _ (by simpa using hid)]
      · rw [List.find?_cons_of_neg _ (by simpa using hid),
          List.find?_cons_of_neg _ (by simpa using hid), ih]

theorem mapLookup_mapAssign_other (m : List (String × SpeedTestResult)) (key id : String)
    (value : SpeedTestResult) (hne : id ≠ key) :
    mapLookup (mapAssign m key value) id = mapLookup m id := by
  have hk : ¬ key = id := fun h => hne h.symm
  unfold mapLookup mapAssign
  rw [List.find?_cons_of_neg _ (by simpa using hk), find_filter_ne m key id hne]

theorem inMemory_get_after_save (repo : InMemorySpeedTestRepo) (result : SpeedTestResult) :
    (repo.SaveResult result).1.GetResultByID result.ID = (some result, none) := by
  simp [InMemorySpeedTestRepo.SaveResult, InMemorySpeedTestRepo.GetResultByID,
    mapLookup_mapAssign_self]

/-- C15: in the in-memory store, `SaveResult(r)` succeeds, a following
`GetResultByID(r.ID)` succeeds and returns exactly `r`, whatever was stored under that ID
before, and the lookup of every other ID is unchanged. -/
theorem inMemory_save_get_roundtrip (repo : InMemorySpeedTestRepo) (result : SpeedTestResult)
    (id : String) (hne : id ≠ result.ID) :
    (repo.SaveResult result).2 = none
      ∧ (repo.SaveResult result).1.GetResultByID result.ID = (some result, none)
      ∧ (repo.SaveResult result).1.GetResultByID id = repo.GetResultByID id := by
  refine ⟨rfl, inMemory_get_after_save repo result, ?_⟩
  simp [InMemorySpeedTestRepo.SaveResult, InMemorySpeedTestRepo.GetResultByID,
    mapLookup_mapAssign_other _ _ _ _ hne]

/-- Witness for C15: saving over an existing entry with the same ID, next to an entry
with another ID. -/
theorem inMemory_save_get_roundtrip_witness :
    "42" ≠ sampleResult.ID
      ∧ (InMemorySpeedTestRepo.SaveResult
            { results := [("42", { sampleResult with ID := "42" }),
                (sampleResult.ID, { sampleResult with UserID := "earlier" })] }
            sampleResult).1.GetResultByID sampleResult.ID = (some sampleResult, none)
      ∧ (InMemorySpeedTestRepo.SaveResult
            { results := [("42", { sampleResult with ID := "42" }),
                (sampleResult.ID, { sampleResult with UserID := "earlier" })] }
            sampleResult).1.GetResultByID "42"
          = InMemorySpeedTestRepo.GetResultByID
            { results := [("42", { sampleResult with ID := "42" }),
                (sampleResult.ID, { sampleResult with UserID := "earlier" })] } "42" :=
  ⟨by decide,
    (inMemory_save_get_roundtrip
      { results := [("42", { sampleResult with ID := "42" }),
          (sampleResult.ID, { sampleResult with UserID := "earlier" })] }
      sampleResult "42" (by decide)).2.1,
    (inMemory_save_get_roundtrip
      { results := [("42", { sampleResult with ID := "42" }),
          (sampleResult.ID, { sampleResult with UserID := "earlier" })] }
      sampleResult "42" (by decide)).2.2⟩

/-- C16 fails on the code: two invocations of `RunSpeedTest` whose `time.Now().UnixNano()`
reads the same value produce results with the same ID although they belong to different
users, and in the in-memory store the second result replaces the first. -/
theorem runSpeedTest_id_collision :
    ∃ out1 out2 r1 r2,
      RunSpeedTest inMemoryRepository createInMemorySpeedTestRepo deadNetwork sampleRandom
          1700000000000000000 1700000000000000100 "alice" sampleIpInfo false = some out1
        ∧ RunSpeedTest inMemoryRepository out1.store deadNetwork sampleRandom
          1700000000000000000 1700000000000000200 "bob" sampleIpInfo true = some out2
        ∧ out1.result = some r1 ∧ out2.result = some r2
        ∧ out1.err = none ∧ out2.err = none
        ∧ r1.ID = r2.ID ∧ r1.UserID ≠ r2.UserID
        ∧ out2.store.GetResultByID r1.ID = (some r2, none) := by
  obtain ⟨d1, u1, p1, j1, _, h1⟩ := RunSpeedTest_eq inMemoryRepository
    createInMemorySpeedTestRepo deadNetwork sampleRandom 1700000000000000000
    1700000000000000100 "alice" sampleIpInfo false
  obtain ⟨d2, u2, p2, j2, _, h2⟩ := RunSpeedTest_eq inMemoryRepository
    (inMemoryRepository.SaveResult createInMemorySpeedTestRepo
      { ID := toString (1700000000000000000 : Int), UserID := "alice", DownloadSpeed := d1,
        UploadSpeed := u1, Ping := p1, Jitter := j1,
        ISP := sampleIpInfo.index "isp", IPAddress := sampleIpInfo.index "ip",
        Country := sampleIpInfo.index "country", Region := sampleIpInfo.index "region",
        CreatedAt := 1700000000000000100 }).1
    deadNetwork sampleRandom 1700000000000000000 1700000000000000200 "bob" sampleIpInfo true
  exact ⟨_, _, _, _, h1, h2, rfl, rfl, rfl, rfl, rfl, (by decide : "alice" ≠ "bob"),
    inMemory_get_after_save _ _⟩

end SpeedTest

namespace SpeedTest

/-! ## Server binding, timeouts and upload payloads: claims -/

/-- C17: each multi-connection worker `connID < 4` is bound to the server at index
`connID % len(testServers)`; with the 5 configured servers that index is in bounds, so the
URL construction does not panic, and two different workers are bound to different
servers. -/
theorem worker_server_binding (connID other : Nat) (hc : connID < 4) (ho : other < 4)
    (hne : connID ≠ other) :
    testServers.length = 5
      ∧ serverIndex connID = connID % testServers.length
      ∧ serverIndex connID < testServers.length
      ∧ (∃ server, workerServer connID = some server
          ∧ multiDownloadUrl connID = some (server.URL ++ "/__down?bytes=10000000")
          ∧ multiUploadUrl connID = some (server.URL ++ "/__up"))
      ∧ serverIndex connID ≠ serverIndex other
      ∧ workerServer connID ≠ workerServer other := by
  interval_cases connID <;> interval_cases other <;>
    first
    | exact absurd rfl hne
    | exact ⟨rfl, rfl, by decide, ⟨_, rfl, rfl, rfl⟩, by decide, by decide⟩

/-- Witness for C17: workers 0 and 3. -/
theorem worker_server_binding_witness :
    0 < 4 ∧ 3 < 4 ∧ 0 ≠ 3
      ∧ serverIndex 0 < testServers.length
      ∧ workerServer 0 ≠ workerServer 3 :=
  ⟨by decide, by decide, by decide,
    (worker_server_binding 0 3 (by decide) (by decide) (by decide)).2.2.1,
    (worker_server_binding 0 3 (by decide) (by decide) (by decide)).2.2.2.2.2⟩

/-- C18 fails on the code: the secondary latency probe (`http.Head`) and the fallback
download (`http.Get`) go through the default client and have no timeout, while the other
six network calls are configured with 2 s, 30 s, 20 s, 30 s, 20 s and 15 s. -/
theorem network_call_timeouts :
    configuredTimeout .alternativePingHead = none
      ∧ configuredTimeout .alternativeDownloadGet = none
      ∧ configuredTimeout .pingDial = some 2
      ∧ configuredTimeout .downloadGet = some 30
      ∧ configuredTimeout .multiDownloadGet = some 20
      ∧ configuredTimeout .uploadDo = some 30
      ∧ configuredTimeout .multiUploadDo = some 20
      ∧ configuredTimeout .alternativeUploadDo = some 15 := by
  decide

theorem succeededUploads_eq (post : Nat → Upload) :
    succeededUploads post
      = (if (post 0).failed then 0 else 1) + (if (post 1).failed then 0 else 1)
        + (if (post 2).failed then 0 else 1) + (if (post 3).failed then 0 else 1) := by
  unfold succeededUploads
  have hr : List.range 4 = [0, 1, 2, 3] := by decide
  rw [hr]
  simp only [List.filter_cons, List.filter_nil]
  cases (post 0).failed <;> cases (post 1).failed <;> cases (post 2).failed <;>
    cases (post 3).failed <;> rfl

theorem multiUploadJoin_totalBytes_eq (post : Nat → Upload) (sched : List Nat) :
    (multiUploadJoin post sched).totalBytes = succeededUploads post * 2097152 := by
  rw [multiUploadJoin_totalBytes, succeededUploads_eq]
  cases (post 0).failed <;> cases (post 1).failed <;> cases (post 2).failed <;>
    cases (post 3).failed <;> rfl

theorem succeededUploads_pos (post : Nat → Upload) (hk : 1 ≤ succeededUploads post) :
    ¬ ∀ c : Nat, c < 4 → (post c).failed = true := by
  intro hall
  rw [succeededUploads_eq, hall 0 (by omega), hall 1 (by omega), hall 2 (by omega),
    hall 3 (by omega)] at hk
  simp at hk

/-- C19, as stated, fails: the payload of an upload worker is `2 * 1024 * 1024` = 2,097,152
bytes, not 2,000,000; with all four workers succeeding over 1 s the accumulated count is
8,388,608 bytes and the rate differs from `4 * 2,000,000 * 8 / 1,000,000 / 1`. -/
theorem multi_upload_payload_counterexample :
    succeededUploads allDonePost = 4
      ∧ (multiUploadJoin allDonePost []).totalBytes = 8388608
      ∧ (multiUploadJoin allDonePost []).totalBytes ≠ 4 * 2000000
      ∧ measureMultiConnectionUploadSpeed allDonePost [] 1 = (mbps 8388608 1, none)
      ∧ (measureMultiConnectionUploadSpeed allDonePost [] 1).1
        ≠ (4 * 2000000 : ℚ) * 8 / 1000000 / 1 := by
  have hk : succeededUploads allDonePost = 4 := by decide
  have hb : (multiUploadJoin allDonePost []).totalBytes = 8388608 := by
    rw [multiUploadJoin_totalBytes_eq, hk]
  have hr : measureMultiConnectionUploadSpeed allDonePost [] 1 = (mbps 8388608 1, none) := by
    rw [measureMultiConnectionUploadSpeed_eq, if_neg (succeededUploads_pos _ (by rw [hk]; decide)),
      hb]
  refine ⟨hk, hb, by rw [hb]; decide, hr, ?_⟩
  rw [hr]
  norm_num [mbps]

/-- C19, amended: each upload worker sends a payload of `2 * 1024 * 1024` = 2,097,152
bytes; over a positive elapsed time, when `k >= 1` of the 4 workers succeed the
accumulated byte count is `k * 2,097,152` under every interleaving and the returned rate
is `k * 2,097,152 * 8 / 1,000,000 / elapsedSeconds` with no error; a worker that failed
adds no bytes, a worker that succeeded adds exactly its payload. -/
theorem multi_upload_bytes_amended (post : Nat → Upload) (sched : List Nat)
    (elapsedSeconds : ℚ) (hpos : 0 < elapsedSeconds) (hk : 1 ≤ succeededUploads post) :
    (multiUploadJoin post sched).totalBytes = succeededUploads post * 2097152
      ∧ measureMultiConnectionUploadSpeed post sched elapsedSeconds
        = (((succeededUploads post * 2097152 : Nat) : ℚ) * 8 / 1000000 / elapsedSeconds, none)
      ∧ (∀ connID, bytesIn (uploadWorker (2 * 1024 * 1024) (post connID))
          = if (post connID).failed then 0 else 2097152) := by
  have _ := hpos
  refine ⟨multiUploadJoin_totalBytes_eq post sched, ?_, fun c => bytesIn_uploadWorker _ _⟩
  rw [measureMultiConnectionUploadSpeed_eq, if_neg (succeededUploads_pos post hk),
    multiUploadJoin_totalBytes_eq]
  rfl

/-- Witness for the amended C19: one succeeding worker out of four, over 2 s. -/
theorem multi_upload_bytes_amended_witness :
    (0 : ℚ) < 2 ∧ 1 ≤ succeededUploads oneDonePost
      ∧ (multiUploadJoin oneDonePost [3, 2, 0]).totalBytes = succeededUploads oneDonePost * 2097152
      ∧ measureMultiConnectionUploadSpeed oneDonePost [3, 2, 0] 2
        = (((succeededUploads oneDonePost * 2097152 : Nat) : ℚ) * 8 / 1000000 / 2, none) :=
  ⟨by norm_num, by decide,
    (multi_upload_bytes_amended oneDonePost [3, 2, 0] 2 (by norm_num) (by decide)).1,
    (multi_upload_bytes_amended oneDonePost [3, 2, 0] 2 (by norm_num) (by decide)).2.1⟩

/-- C20: when the request is built and `client.Do` returns no error, `measureUploadSpeed`
returns `payloadSize * 8 / 1,000,000 / elapsedSeconds` with no error, where `payloadSize`
= `5 * 1024 * 1024` is the length declared as the request's content length (and the length
of its body reader); the rate is the same whatever the exchange transmitted or received. -/
theorem upload_rate_from_configured_size (exchange other : HttpExchange)
    (elapsedSeconds : ℚ) :
    measureUploadSpeed (Upload.ofDo (.ok exchange)) elapsedSeconds
        = ((measureUploadSpeedRequest.contentLength : ℚ) * 8 / 1000000 / elapsedSeconds, none)
      ∧ measureUploadSpeedRequest.contentLength = 5 * 1024 * 1024
      ∧ measureUploadSpeedRequest.bodyLength = measureUploadSpeedRequest.contentLength
      ∧ measureUploadSpeed (Upload.ofDo (.ok exchange)) elapsedSeconds
        = measureUploadSpeed (Upload.ofDo (.ok other)) elapsedSeconds := by
  refine ⟨?_, by decide, rfl, rfl⟩
  simp [measureUploadSpeed, Upload.ofDo, measureUploadSpeedRequest]

end SpeedTest

namespace SpeedTest

/-! ## Non-negativity of the metrics -/

theorem mean_nonneg (xs : List ℚ) (h : ∀ x ∈ xs, 0 ≤ x) : 0 ≤ mean xs := by
  unfold mean
  exact div_nonneg (List.sum_nonneg h) (Nat.cast_nonneg _)

theorem measurePingAndJitter_nonneg (dial : ProbeNet)
    (h : ∀ x ∈ samplesOf dial primaryHosts, 0 ≤ x) :
    0 ≤ (measurePingAndJitter dial).1 ∧ 0 ≤ (measurePingAndJitter dial).2.1 := by
  rw [measurePingAndJitter_eq]
  split_ifs
  · exact ⟨le_refl _, le_refl _⟩
  · exact ⟨mean_nonneg _ h, sampleVariance_nonneg _⟩

theorem measureAlternativePing_nonneg (head : ProbeNet)
    (h : ∀ x ∈ samplesOf head secondaryHosts, 0 ≤ x) :
    0 ≤ (measureAlternativePing head).1 ∧ 0 ≤ (measureAlternativePing head).2.1 := by
  rw [measureAlternativePing_eq]
  split_ifs
  · exact ⟨le_refl _, le_refl _⟩
  · exact ⟨mean_nonneg _ h, sampleVariance_nonneg _⟩

theorem measureDownloadSpeed_nonneg (get : Download) (elapsedSeconds : ℚ)
    (hpos : 0 < elapsedSeconds) : 0 ≤ (measureDownloadSpeed get elapsedSeconds).1 := by
  cases get with
  | getFailed e => exact le_refl _
  | response reads readErr =>
    cases readErr with
    | some e => exact le_refl _
    | none =>
      simp only [measureDownloadSpeed]
      positivity

theorem measureUploadSpeed_nonneg (post : Upload) (elapsedSeconds : ℚ)
    (hpos : 0 < elapsedSeconds) : 0 ≤ (measureUploadSpeed post elapsedSeconds).1 := by
  cases post with
  | newRequestFailed e => exact le_refl _
  | doFailed e => exact le_refl _
  | done =>
    simp only [measureUploadSpeed]
    positivity

theorem measureMultiConnectionDownloadSpeed_nonneg (get : Nat → Download) (sched : List Nat)
    (elapsedSeconds : ℚ) (hpos : 0 < elapsedSeconds) :
    0 ≤ (measureMultiConnectionDownloadSpeed get sched elapsedSeconds).1 := by
  rw [measureMultiConnectionDownloadSpeed_eq]
  split_ifs
  · exact le_refl _
  · exact mbps_nonneg _ _ hpos

theorem measureMultiConnectionUploadSpeed_nonneg (post : Nat → Upload) (sched : List Nat)
    (elapsedSeconds : ℚ) (hpos : 0 < elapsedSeconds) :
    0 ≤ (measureMultiConnectionUploadSpeed post sched elapsedSeconds).1 := by
  rw [measureMultiConnectionUploadSpeed_eq]
  split_ifs
  · exact le_refl _
  · exact mbps_nonneg _ _ hpos

/-- On its non-error path the shared median step returns 1.5 times one of the rates. -/
theorem medianScaled_mem (speeds : List ℚ) (failure : GoError) (hne : speeds ≠ []) :
    ∃ m ∈ speeds, medianScaled speeds failure = some (m * (3 / 2), none) := by
  obtain ⟨m, hget, hres⟩ := medianScaled_of_ne_nil speeds failure hne
  exact ⟨m, (sortFloat64s_perm speeds).mem_iff.1 (List.get?_mem hget), hres⟩

theorem alternativeDownloadSpeeds_pos (get : String → Download × ℚ) :
    ∀ x ∈ alternativeDownloadSpeeds get, 0 < x := by
  intro x hx
  rw [alternativeDownloadSpeeds_eq] at hx
  obtain ⟨url, _, hrate⟩ := List.mem_filterMap.1 hx
  rcases hg : get url with ⟨d, seconds⟩
  rw [hg] at hrate
  cases d with
  | getFailed e => simp [downloadSourceRate] at hrate
  | response reads readErr =>
    simp only [downloadSourceRate] at hrate
    split_ifs at hrate with hc
    simp only [Option.some.injEq] at hrate
    rw [← hrate]
    exact (mbps_pos_iff _ _ hc.2).2 hc.1

theorem alternativeUploadSpeeds_pos (post : String → Upload × ℚ) :
    ∀ x ∈ alternativeUploadSpeeds post, 0 < x := by
  intro x hx
  rw [alternativeUploadSpeeds_eq] at hx
  obtain ⟨url, _, hrate⟩ := List.mem_filterMap.1 hx
  rcases hg : post url with ⟨u, seconds⟩
  rw [hg] at hrate
  cases u with
  | newRequestFailed e => simp [uploadSourceRate] at hrate
  | doFailed e => simp [uploadSourceRate] at hrate
  | done =>
    simp only [uploadSourceRate] at hrate
    split_ifs at hrate with hc
    simp only [Option.some.injEq] at hrate
    rw [← hrate]
    exact (mbps_pos_iff _ _ hc).2 (by norm_num)

theorem medianScaled_value_nonneg (speeds : List ℚ) (failure : GoError) (v : ℚ)
    (hpos : ∀ x ∈ speeds, 0 < x) (h : medianScaled speeds failure = some (v, none)) :
    0 ≤ v := by
  by_cases hne : speeds = []
  · subst hne
    simp [medianScaled] at h
  · obtain ⟨m, hm, hres⟩ := medianScaled_mem speeds failure hne
    rw [hres] at h
    simp only [Option.some.injEq, Prod.mk.injEq, and_true] at h
    rw [← h]
    have := hpos m hm
    positivity

/-- Every metric returned by `performSpeedTest` is the value of its first successful
tier. -/
theorem performSpeedTest_tiers (net : Network) (rnd : Random) (isMultiConnection : Bool) :
    ∃ downloadSpeed uploadSpeed ping jitter,
      performSpeedTest net rnd isMultiConnection
          = some (downloadSpeed, uploadSpeed, ping, jitter, none)
        ∧ ((measurePingAndJitter net.dial).2.2 = none →
            ping = (measurePingAndJitter net.dial).1
              ∧ jitter = (measurePingAndJitter net.dial).2.1)
        ∧ ((measurePingAndJitter net.dial).2.2 ≠ none →
            (measureAlternativePing net.headProbe).2.2 = none →
            ping = (measureAlternativePing net.headProbe).1
              ∧ jitter = (measureAlternativePing net.headProbe).2.1)
        ∧ ((measurePingAndJitter net.dial).2.2 ≠ none →
            (measureAlternativePing net.headProbe).2.2 ≠ none →
            ping = ((15 + rnd.pingIntn.val : Nat) : ℚ)
              ∧ jitter = ((2 + rnd.jitterIntn.val : Nat) : ℚ))
        ∧ ((selectedDownload net isMultiConnection).2 = none →
            downloadSpeed = (selectedDownload net isMultiConnection).1)
        ∧ ((selectedDownload net isMultiConnection).2 ≠ none →
            ∀ v, measureAlternativeDownloadSpeed net.altDownload = some (v, none) →
              downloadSpeed = v)
        ∧ ((selectedDownload net isMultiConnection).2 ≠ none →
            (∃ v e, measureAlternativeDownloadSpeed net.altDownload = some (v, some e)) →
              downloadSpeed = 80 + rnd.downloadFloat.val * 40)
        ∧ ((selectedUpload net isMultiConnection).2 = none →
            uploadSpeed = (selectedUpload net isMultiConnection).1)
        ∧ ((selectedUpload net isMultiConnection).2 ≠ none →
            ∀ v, measureAlternativeUploadSpeed net.altUpload = some (v, none) →
              uploadSpeed = v)
        ∧ ((selectedUpload net isMultiConnection).2 ≠ none →
            (∃ v e, measureAlternativeUploadSpeed net.altUpload = some (v, some e)) →
              uploadSpeed = 5 + rnd.uploadFloat.val * 15) := by
  obtain ⟨d, hd, hd1, hd2, hd3⟩ := throughputTier_fst Call.measureAlternativeDownloadSpeed
    Call.syntheticDownload (selectedDownload net isMultiConnection)
    (measureAlternativeDownloadSpeed net.altDownload) (80 + rnd.downloadFloat.val * 40)
    (measureAlternativeDownloadSpeed_ne_none _)
  obtain ⟨u, hu, hu1, hu2, hu3⟩ := throughputTier_fst Call.measureAlternativeUploadSpeed
    Call.syntheticUpload (selectedUpload net isMultiConnection)
    (measureAlternativeUploadSpeed net.altUpload) (5 + rnd.uploadFloat.val * 15)
    (measureAlternativeUploadSpeed_ne_none _)
  have hL := performSpeedTestLogged_eq net rnd isMultiConnection
  rw [hd] at hL
  simp only [hu, Option.map_some'] at hL
  have hsnd := performSpeedTestLogged_snd net rnd isMultiConnection
  rw [hL] at hsnd
  have hvals := latencyTier_values (measurePingAndJitter net.dial)
    (measureAlternativePing net.headProbe) rnd
  exact ⟨d, u, _, _, hsnd.symm, hvals.1, hvals.2.1, hvals.2.2, hd1, hd2, hd3, hu1, hu2, hu3⟩

theorem selectedDownload_nonneg (net : Network) (isMultiConnection : Bool)
    (h1 : 0 < net.downloadSeconds) (h2 : 0 < net.multiDownloadSeconds) :
    0 ≤ (selectedDownload net isMultiConnection).1 := by
  unfold selectedDownload
  split_ifs
  · exact measureMultiConnectionDownloadSpeed_nonneg _ _ _ h2
  · exact measureDownloadSpeed_nonneg _ _ h1

theorem selectedUpload_nonneg (net : Network) (isMultiConnection : Bool)
    (h1 : 0 < net.uploadSeconds) (h2 : 0 < net.multiUploadSeconds) :
    0 ≤ (selectedUpload net isMultiConnection).1 := by
  unfold selectedUpload
  split_ifs
  · exact measureMultiConnectionUploadSpeed_nonneg _ _ _ h2
  · exact measureUploadSpeed_nonneg _ _ h1

/-- C21: when every collected latency sample is non-negative and every elapsed time
measured by a primary throughput estimator is positive, `performSpeedTest` returns a
non-negative download speed, upload speed, ping and jitter, whichever tier produced each
of them (the fallback estimators discard a source whose elapsed time is not positive). -/
theorem performSpeedTest_metrics_nonneg (net : Network) (rnd : Random)
    (isMultiConnection : Bool)
    (hdial : ∀ x ∈ samplesOf net.dial primaryHosts, 0 ≤ x)
    (hhead : ∀ x ∈ samplesOf net.headProbe secondaryHosts, 0 ≤ x)
    (hds : 0 < net.downloadSeconds) (hdm : 0 < net.multiDownloadSeconds)
    (hus : 0 < net.uploadSeconds) (hum : 0 < net.multiUploadSeconds) :
    ∃ downloadSpeed uploadSpeed ping jitter,
      performSpeedTest net rnd isMultiConnection
          = some (downloadSpeed, uploadSpeed, ping, jitter, none)
        ∧ 0 ≤ downloadSpeed ∧ 0 ≤ uploadSpeed ∧ 0 ≤ ping ∧ 0 ≤ jitter := by
  obtain ⟨d, u, p, j, hres, hl1, hl2, hl3, hd1, hd2, hd3, hu1, hu2, hu3⟩ :=
    performSpeedTest_tiers net rnd isMultiConnection
  have hpj : 0 ≤ p ∧ 0 ≤ j := by
    by_cases h1 : (measurePingAndJitter net.dial).2.2 = none
    · obtain ⟨rfl, rfl⟩ := hl1 h1
      exact measurePingAndJitter_nonneg _ hdial
    · by_cases h2 : (measureAlternativePing net.headProbe).2.2 = none
      · obtain ⟨rfl, rfl⟩ := hl2 h1 h2
        exact measureAlternativePing_nonneg _ hhead
      · obtain ⟨rfl, rfl⟩ := hl3 h1 h2
        exact ⟨Nat.cast_nonneg _, Nat.cast_nonneg _⟩
  have hd : 0 ≤ d := by
    by_cases h1 : (selectedDownload net isMultiConnection).2 = none
    · rw [hd1 h1]
      exact selectedDownload_nonneg net isMultiConnection hds hdm
    · rcases measureAlternativeDownloadSpeed_cases net.altDownload with h | ⟨v, h⟩
      · rw [hd3 h1 ⟨_, _, h⟩]
        have := rnd.downloadFloat.nonneg
        positivity
      · rw [hd2 h1 v h]
        exact medianScaled_value_nonneg _ _ v
          (fun x hx => alternativeDownloadSpeeds_pos net.altDownload x hx) h
  have hu : 0 ≤ u := by
    by_cases h1 : (selectedUpload net isMultiConnection).2 = none
    · rw [hu1 h1]
      exact selectedUpload_nonneg net isMultiConnection hus hum
    · rcases measureAlternativeUploadSpeed_cases net.altUpload with h | ⟨v, h⟩
      · rw [hu3 h1 ⟨_, _, h⟩]
        have := rnd.uploadFloat.nonneg
        positivity
      · rw [hu2 h1 v h]
        exact medianScaled_value_nonneg _ _ v
          (fun x hx => alternativeUploadSpeeds_pos net.altUpload x hx) h
  exact ⟨d, u, p, j, hres, hd, hu, hpj.1, hpj.2⟩

/-- Witness for C21: a network whose strategies all measure something, in both
connection modes. -/
theorem performSpeedTest_metrics_nonneg_witness :
    (∀ x ∈ samplesOf liveNetwork.dial primaryHosts, 0 ≤ x)
      ∧ (∀ x ∈ samplesOf liveNetwork.headProbe secondaryHosts, 0 ≤ x)
      ∧ 0 < liveNetwork.downloadSeconds ∧ 0 < liveNetwork.multiDownloadSeconds
      ∧ 0 < liveNetwork.uploadSeconds ∧ 0 < liveNetwork.multiUploadSeconds
      ∧ (∃ downloadSpeed uploadSpeed ping jitter,
          performSpeedTest liveNetwork sampleRandom true
              = some (downloadSpeed, uploadSpeed, ping, jitter, none)
            ∧ 0 ≤ downloadSpeed ∧ 0 ≤ uploadSpeed ∧ 0 ≤ ping ∧ 0 ≤ jitter) :=
  ⟨by decide, by decide, by decide, by norm_num [liveNetwork], by decide, by decide,
    performSpeedTest_metrics_nonneg liveNetwork sampleRandom true (by decide) (by decide)
      (by decide) (by norm_num [liveNetwork]) (by decide) (by decide)⟩

end SpeedTest

namespace SpeedTest

/-! ## Latency aggregation, deletion, save failure and permutation invariance -/

theorem measurePingAndJitter_aggregate (dial : ProbeNet) :
    measurePingAndJitter dial = latencyAggregate (samplesOf dial primaryHosts) := by
  rw [measurePingAndJitter_eq]
  rfl

theorem measureAlternativePing_aggregate (head : ProbeNet) :
    measureAlternativePing head = latencyAggregate (samplesOf head secondaryHosts) := by
  rw [measureAlternativePing_eq]
  rfl

/-- C22: both latency strategies apply one and the same aggregation to the samples they
collected; fed the same samples they return the same `(mean, jitter, error)` triple, which
is `0, 0` and the error "not enough successful pings" below 3 samples and carries no error
from 3 samples on. -/
theorem latency_strategies_same_aggregation (dial head : ProbeNet)
    (hsame : samplesOf dial primaryHosts = samplesOf head secondaryHosts) :
    measurePingAndJitter dial = latencyAggregate (samplesOf dial primaryHosts)
      ∧ measureAlternativePing head = latencyAggregate (samplesOf head secondaryHosts)
      ∧ measurePingAndJitter dial = measureAlternativePing head
      ∧ ((samplesOf dial primaryHosts).length < 3 →
          measurePingAndJitter dial = (0, 0, some "not enough successful pings")
            ∧ measureAlternativePing head = (0, 0, some "not enough successful pings"))
      ∧ (3 ≤ (samplesOf dial primaryHosts).length →
          (measurePingAndJitter dial).2.2 = none ∧ (measureAlternativePing head).2.2 = none) := by
  have h1 := measurePingAndJitter_aggregate dial
  have h2 := measureAlternativePing_aggregate head
  refine ⟨h1, h2, by rw [h1, h2, hsame], ?_, ?_⟩
  · intro hlt
    rw [h1, h2, ← hsame]
    unfold latencyAggregate
    rw [if_pos hlt]
    exact ⟨rfl, rfl⟩
  · intro hge
    rw [h1, h2, ← hsame]
    unfold latencyAggregate
    rw [if_neg (by omega)]
    exact ⟨rfl, rfl⟩

/-- Witness for C22: the same ten samples collected by both strategies. -/
theorem latency_strategies_same_aggregation_witness :
    samplesOf twoHostProbe primaryHosts = samplesOf twoHostProbe secondaryHosts
      ∧ measurePingAndJitter twoHostProbe = measureAlternativePing twoHostProbe
      ∧ (measurePingAndJitter twoHostProbe).2.2 = none :=
  ⟨by decide, (latency_strategies_same_aggregation twoHostProbe twoHostProbe (by decide)).2.2.1,
    ((latency_strategies_same_aggregation twoHostProbe twoHostProbe (by decide)).2.2.2.2
      (by decide)).1⟩

/-- C23 fails on the code: for the samples `[10,12,11,13,14]` `measurePingAndJitter`
returns the jitter 5/2, which is the sample variance itself, so its square 25/4 is not the
sum of squared deviations over `n - 1`. -/
theorem jitter_is_variance_not_deviation :
    samplesOf scenarioDial primaryHosts = [10, 12, 11, 13, 14]
      ∧ 3 ≤ (samplesOf scenarioDial primaryHosts).length
      ∧ sampleVariance (samplesOf scenarioDial primaryHosts) = 5 / 2
      ∧ (measurePingAndJitter scenarioDial).2.1 = 5 / 2
      ∧ (measurePingAndJitter scenarioDial).2.1 * (measurePingAndJitter scenarioDial).2.1
        ≠ sampleVariance (samplesOf scenarioDial primaryHosts) := by
  have hs : samplesOf scenarioDial primaryHosts = [10, 12, 11, 13, 14] := by decide
  have hv : sampleVariance (samplesOf scenarioDial primaryHosts) = 5 / 2 := by
    rw [hs]
    norm_num [sampleVariance, mean]
  have hj : (measurePingAndJitter scenarioDial).2.1 = 5 / 2 := by
    rw [measurePingAndJitter_eq, if_neg (by rw [hs]; decide), hv]
  refine ⟨hs, by rw [hs]; decide, hv, hj, ?_⟩
  rw [hj, hv]
  norm_num

theorem mapLookup_mapDelete_self (m : List (String × SpeedTestResult)) (key : String) :
    mapLookup (mapDelete m key) key = none := by
  unfold mapLookup mapDelete
  induction m with
  | nil => rfl
  | cons kv m ih =>
    by_cases hk : kv.1 = key
    · rw [List.filter_cons_of_neg (by simpa using hk)]
      exact ih
    · rw [List.filter_cons_of_pos (by simpa using hk),
        List.find?_cons_of_neg _ (by simpa using hk)]
      exact ih

theorem inMemory_get_after_delete (repo : InMemorySpeedTestRepo) (id : String) :
    (repo.DeleteResult id).1.GetResultByID id = (none, some "result not found") := by
  simp [InMemorySpeedTestRepo.DeleteResult, InMemorySpeedTestRepo.GetResultByID,
    mapLookup_mapDelete_self]

/-- C24: `DeleteTestResult` returns the same error and leaves the store in the same state
whatever user ID it is given, for every repository; on the in-memory store it succeeds and
the result is gone afterwards, also when the caller is not the user the result belongs
to. -/
theorem deleteTestResult_ignores_user {σ : Type} (speedTestRepo : SpeedTestRepository σ)
    (store : σ) (repo : InMemorySpeedTestRepo) (resultID u1 u2 : String) :
    DeleteTestResult speedTestRepo store resultID u1
        = DeleteTestResult speedTestRepo store resultID u2
      ∧ DeleteTestResult inMemoryRepository repo resultID u1
        = DeleteTestResult inMemoryRepository repo resultID u2
      ∧ (DeleteTestResult inMemoryRepository repo resultID u1).2 = none
      ∧ (DeleteTestResult inMemoryRepository repo resultID u1).1.GetResultByID resultID
        = (none, some "result not found")
      ∧ (∀ result : SpeedTestResult, result.UserID ≠ u1 →
          (repo.SaveResult result).1.GetResultByID result.ID = (some result, none)
            ∧ InMemorySpeedTestRepo.GetResultByID
                (DeleteTestResult inMemoryRepository (repo.SaveResult result).1 result.ID u1).1
                result.ID = (none, some "result not found")) := by
  refine ⟨rfl, rfl, rfl, inMemory_get_after_delete repo resultID, ?_⟩
  intro result _
  exact ⟨inMemory_get_after_save repo result, inMemory_get_after_delete _ _⟩

/-- Witness for C24: a result of user "anonymous" deleted on behalf of another user. -/
theorem deleteTestResult_ignores_user_witness :
    sampleResult.UserID ≠ "mallory"
      ∧ InMemorySpeedTestRepo.GetResultByID
          (DeleteTestResult inMemoryRepository
            (createInMemorySpeedTestRepo.SaveResult sampleResult).1 sampleResult.ID "mallory").1
          sampleResult.ID = (none, some "result not found") :=
  ⟨by decide,
    ((deleteTestResult_ignores_user inMemoryRepository createInMemorySpeedTestRepo
      createInMemorySpeedTestRepo sampleResult.ID "mallory" "anonymous").2.2.2.2
        sampleResult (by decide)).2⟩

/-- C25: `RunSpeedTest` always returns the assembled, non-nil result, whose identity,
metric and metadata fields are all set, together with the error of its `SaveResult` call;
so when that call fails the caller receives the store's error and the result, not a nil
result; `performSpeedTest` itself never returns an error, so the `nil` result path is not
taken. -/
theorem runSpeedTest_save_failure_keeps_result {σ : Type}
    (speedTestRepo : SpeedTestRepository σ) (store : σ) (net : Network) (rnd : Random)
    (unixNano createdAt : Int) (userID : String) (ipInfo : StringMap)
    (isMultiConnection : Bool) :
    ∃ out result downloadSpeed uploadSpeed ping jitter,
      RunSpeedTest speedTestRepo store net rnd unixNano createdAt userID ipInfo
          isMultiConnection = some out
        ∧ performSpeedTest net rnd isMultiConnection
          = some (downloadSpeed, uploadSpeed, ping, jitter, none)
        ∧ out.result = some result
        ∧ out.saved = [result]
        ∧ out.err = (speedTestRepo.SaveResult store result).2
        ∧ result =
          { ID := toString unixNano, UserID := userID, DownloadSpeed := downloadSpeed,
            UploadSpeed := uploadSpeed, Ping := ping, Jitter := jitter,
            ISP := ipInfo.index "isp", IPAddress := ipInfo.index "ip",
            Country := ipInfo.index "country", Region := ipInfo.index "region",
            CreatedAt := createdAt }
        ∧ (∀ storeErr, (speedTestRepo.SaveResult store result).2 = some storeErr →
            out.err = some storeErr ∧ out.result = some result ∧ out.result ≠ none) := by
  obtain ⟨d, u, p, j, hres, hrun⟩ := RunSpeedTest_eq speedTestRepo store net rnd unixNano
    createdAt userID ipInfo isMultiConnection
  exact ⟨_, _, d, u, p, j, hrun, hres, rfl, rfl, rfl, rfl,
    fun storeErr h => ⟨h, rfl, Option.some_ne_none _⟩⟩

/-- Witness for C25: a repository whose `SaveResult` fails. -/
theorem runSpeedTest_save_failure_keeps_result_witness :
    ∃ out result,
      RunSpeedTest failingRepository () liveNetwork sampleRandom 1700000000000000000
          1700000000000000100 "anonymous" sampleIpInfo false = some out
        ∧ out.result = some result
        ∧ out.err = some "connection refused"
        ∧ result.ID = "1700000000000000000"
        ∧ result.UserID = "anonymous" := by
  obtain ⟨out, result, d, u, p, j, hrun, _, hres, _, _, hfields, hfail⟩ :=
    runSpeedTest_save_failure_keeps_result failingRepository () liveNetwork sampleRandom
      1700000000000000000 1700000000000000100 "anonymous" sampleIpInfo false
  refine ⟨out, result, hrun, hres, (hfail "connection refused" rfl).1, ?_, ?_⟩
  · rw [hfields]
    exact (by decide : toString (1700000000000000000 : Int) = "1700000000000000000")
  · rw [hfields]

theorem foldl_min_le (xs : List ℚ) (a : ℚ) :
    xs.foldl min a ≤ a ∧ ∀ x ∈ xs, xs.foldl min a ≤ x := by
  induction xs generalizing a with
  | nil => exact ⟨le_refl _, fun x hx => absurd hx (List.not_mem_nil x)⟩
  | cons y ys ih =>
    obtain ⟨h1, h2⟩ := ih (min a y)
    refine ⟨le_trans h1 (min_le_left a y), ?_⟩
    intro x hx
    rcases List.mem_cons.1 hx with rfl | hx
    · exact le_trans h1 (min_le_right a x)
    · exact h2 x hx

theorem le_foldl_max (xs : List ℚ) (a : ℚ) :
    a ≤ xs.foldl max a ∧ ∀ x ∈ xs, x ≤ xs.foldl max a := by
  induction xs generalizing a with
  | nil => exact ⟨le_refl _, fun x hx => absurd hx (List.not_mem_nil x)⟩
  | cons y ys ih =>
    obtain ⟨h1, h2⟩ := ih (max a y)
    refine ⟨le_trans (le_max_left a y) h1, ?_⟩
    intro x hx
    rcases List.mem_cons.1 hx with rfl | hx
    · exact le_trans (le_max_right a x) h1
    · exact h2 x hx

theorem minRate_le (speeds : List ℚ) : ∀ x ∈ speeds, minRate speeds ≤ x := by
  cases speeds with
  | nil => exact fun x hx => absurd hx (List.not_mem_nil x)
  | cons a xs =>
    intro x hx
    rcases List.mem_cons.1 hx with rfl | hx
    · exact (foldl_min_le xs x).1
    · exact (foldl_min_le xs a).2 x hx

theorem le_maxRate (speeds : List ℚ) : ∀ x ∈ speeds, x ≤ maxRate speeds := by
  cases speeds with
  | nil => exact fun x hx => absurd hx (List.not_mem_nil x)
  | cons a xs =>
    intro x hx
    rcases List.mem_cons.1 hx with rfl | hx
    · exact (le_foldl_max xs x).1
    · exact (le_foldl_max xs a).2 x hx

theorem sortFloat64s_perm_eq (speeds other : List ℚ) (hperm : speeds.Perm other) :
    sortFloat64s speeds = sortFloat64s other :=
  List.eq_of_perm_of_sorted
    (((sortFloat64s_perm speeds).trans hperm).trans (sortFloat64s_perm other).symm)
    (sortFloat64s_sorted speeds) (sortFloat64s_sorted other)

theorem medianScaled_perm (speeds other : List ℚ) (failure : GoError)
    (hperm : speeds.Perm other) : medianScaled speeds failure = medianScaled other failure := by
  unfold medianScaled
  rw [sortFloat64s_perm_eq speeds other hperm, hperm.length_eq]

theorem medianScaled_bounds (speeds : List ℚ) (failure : GoError) (v : ℚ)
    (h : medianScaled speeds failure = some (v, none)) :
    minRate speeds * (3 / 2) ≤ v ∧ v ≤ maxRate speeds * (3 / 2) := by
  by_cases hne : speeds = []
  · subst hne
    simp [medianScaled] at h
  · obtain ⟨m, hm, hres⟩ := medianScaled_mem speeds failure hne
    rw [hres] at h
    simp only [Option.some.injEq, Prod.mk.injEq, and_true] at h
    rw [← h]
    have h1 := minRate_le speeds m hm
    have h2 := le_maxRate speeds m hm
    constructor <;> linarith

/-- C26: the shared median step, and with it both fallback estimators, returns the same
result for a rate list and for every permutation of it; on a non-empty rate list the
returned value lies between 1.5 times the smallest and 1.5 times the largest rate. -/
theorem fallback_rate_permutation_invariant (speeds other : List ℚ) (failure : GoError)
    (hne : speeds ≠ []) (hperm : speeds.Perm other) :
    medianScaled speeds failure = medianScaled other failure
      ∧ (∃ v, medianScaled speeds failure = some (v, none)
          ∧ minRate speeds * (3 / 2) ≤ v ∧ v ≤ maxRate speeds * (3 / 2))
      ∧ (∀ get get2 : String → Download × ℚ,
          (alternativeDownloadSpeeds get).Perm (alternativeDownloadSpeeds get2) →
            measureAlternativeDownloadSpeed get = measureAlternativeDownloadSpeed get2)
      ∧ (∀ post post2 : String → Upload × ℚ,
          (alternativeUploadSpeeds post).Perm (alternativeUploadSpeeds post2) →
            measureAlternativeUploadSpeed post = measureAlternativeUploadSpeed post2)
      ∧ (∀ (get : String → Download × ℚ) (v : ℚ),
          measureAlternativeDownloadSpeed get = some (v, none) →
            minRate (alternativeDownloadSpeeds get) * (3 / 2) ≤ v
              ∧ v ≤ maxRate (alternativeDownloadSpeeds get) * (3 / 2))
      ∧ (∀ (post : String → Upload × ℚ) (v : ℚ),
          measureAlternativeUploadSpeed post = some (v, none) →
            minRate (alternativeUploadSpeeds post) * (3 / 2) ≤ v
              ∧ v ≤ maxRate (alternativeUploadSpeeds post) * (3 / 2)) := by
  refine ⟨medianScaled_perm speeds other failure hperm, ?_, ?_, ?_, ?_, ?_⟩
  · obtain ⟨m, _, hres⟩ := medianScaled_mem speeds failure hne
    exact ⟨m * (3 / 2), hres, medianScaled_bounds speeds failure _ hres⟩
  · intro get get2 h
    exact medianScaled_perm _ _ _ h
  · intro post post2 h
    exact medianScaled_perm _ _ _ h
  · intro get v h
    exact medianScaled_bounds _ _ v h
  · intro post v h
    exact medianScaled_bounds _ _ v h

/-- Witness for C26: the rates `[8, 5, 11]` and their rearrangement `[5, 11, 8]`. -/
theorem fallback_rate_permutation_invariant_witness :
    ([8, 5, 11] : List ℚ) ≠ [] ∧ ([8, 5, 11] : List ℚ).Perm [5, 11, 8]
      ∧ medianScaled [8, 5, 11] "all alternative download tests failed"
        = medianScaled [5, 11, 8] "all alternative download tests failed"
      ∧ ∃ v, medianScaled [8, 5, 11] "all alternative download tests failed" = some (v, none)
          ∧ minRate [8, 5, 11] * (3 / 2) ≤ v ∧ v ≤ maxRate [8, 5, 11] * (3 / 2) :=
  ⟨by decide, by decide,
    (fallback_rate_permutation_invariant [8, 5, 11] [5, 11, 8]
      "all alternative download tests failed" (by decide) (by decide)).1,
    (fallback_rate_permutation_invariant [8, 5, 11] [5, 11, 8]
      "all alternative download tests failed" (by decide) (by decide)).2.1⟩

end SpeedTest

namespace SpeedTest

/-! ## float64 rounding: the synthetic values at the ends of their ranges -/

theorem roundHalfEven_cases (q : ℚ) :
    roundHalfEven q = ⌊q⌋ ∨ (roundHalfEven q = ⌊q⌋ + 1 ∧ 1 / 2 ≤ q - ⌊q⌋) := by
  unfold roundHalfEven
  simp only
  split_ifs with h1 h2 h3
  · exact Or.inl rfl
  · exact Or.inr ⟨rfl, le_of_lt h2⟩
  · exact Or.inl rfl
  · exact Or.inr ⟨rfl, not_lt.1 h1⟩

theorem le_roundHalfEven (q : ℚ) (n : ℤ) (h : (n : ℚ) ≤ q) : n ≤ roundHalfEven q := by
  have hf : n ≤ ⌊q⌋ := Int.le_floor.2 h
  rcases roundHalfEven_cases q with hr | ⟨hr, _⟩ <;> rw [hr] <;> omega

theorem roundHalfEven_le (q : ℚ) (n : ℤ) (h : q ≤ (n : ℚ)) : roundHalfEven q ≤ n := by
  rcases roundHalfEven_cases q with hr | ⟨hr, hhalf⟩
  · rw [hr]
    exact_mod_cast le_trans (Int.floor_le q) h
  · rw [hr]
    have hlt : ((⌊q⌋ : ℤ) : ℚ) < (n : ℚ) := by linarith
    have : ⌊q⌋ < n := by exact_mod_cast hlt
    omega

theorem float64Ulp_pos (x : ℚ) : 0 < float64Ulp x := by
  unfold float64Ulp
  positivity

theorem float64Ulp_eq (x : ℚ) (e : ℤ) (h1 : (2 : ℚ) ^ e ≤ |x|) (h2 : |x| < (2 : ℚ) ^ (e + 1))
    (he : -1022 ≤ e) : float64Ulp x = (2 : ℚ) ^ (e - 52) := by
  have hpos : 0 < |x| := lt_of_lt_of_le (by positivity) h1
  have hlog : Int.log 2 |x| = e := by
    apply le_antisymm
    · have := (Int.lt_zpow_iff_log_lt (b := 2) (by norm_num) hpos).1 (by simpa using h2)
      omega
    · exact (Int.zpow_le_iff_le_log (b := 2) (by norm_num) hpos).1 (by simpa using h1)
  unfold float64Ulp
  rw [hlog, max_eq_left (by omega)]

/-- Below `2 ^ 53` the float64 grid contains every integer. -/
theorem float64Ulp_inv_nat (x : ℚ) (hx0 : x ≠ 0) (hx : |x| < (2 : ℚ) ^ (53 : ℤ)) :
    ∃ k : ℕ, float64Ulp x = ((2 : ℚ) ^ k)⁻¹ := by
  have hpos : 0 < |x| := abs_pos.2 hx0
  have hlog : Int.log 2 |x| < 53 :=
    (Int.lt_zpow_iff_log_lt (b := 2) (by norm_num) hpos).1 (by simpa using hx)
  have hle : max (Int.log 2 |x| - 52) (-1074) ≤ 0 := by
    apply max_le <;> omega
  refine ⟨(-(max (Int.log 2 |x| - 52) (-1074))).toNat, ?_⟩
  unfold float64Ulp
  rw [← zpow_natCast, ← zpow_neg, Int.toNat_of_nonneg (by omega), neg_neg]

theorem roundFloat64_bounds (x : ℚ) (a b : ℤ) (hx : |x| < (2 : ℚ) ^ (53 : ℤ))
    (ha : (a : ℚ) ≤ x) (hb : x ≤ (b : ℚ)) :
    (a : ℚ) ≤ roundFloat64 x ∧ roundFloat64 x ≤ (b : ℚ) := by
  unfold roundFloat64
  by_cases hx0 : x = 0
  · rw [if_pos hx0]
    subst hx0
    exact ⟨ha, hb⟩
  · rw [if_neg hx0]
    obtain ⟨k, hk⟩ := float64Ulp_inv_nat x hx0 hx
    rw [hk]
    have h2 : (0 : ℚ) < (2 : ℚ) ^ k := by positivity
    have hdiv : x / ((2 : ℚ) ^ k)⁻¹ = x * (2 : ℚ) ^ k := by field_simp
    rw [hdiv]
    have hA : ((a * 2 ^ k : ℤ) : ℚ) ≤ x * (2 : ℚ) ^ k := by
      push_cast
      exact mul_le_mul_of_nonneg_right ha (le_of_lt h2)
    have hB : x * (2 : ℚ) ^ k ≤ ((b * 2 ^ k : ℤ) : ℚ) := by
      push_cast
      exact mul_le_mul_of_nonneg_right hb (le_of_lt h2)
    have h1 := le_roundHalfEven _ _ hA
    have h3 := roundHalfEven_le _ _ hB
    have h1q : ((a * 2 ^ k : ℤ) : ℚ) ≤ (roundHalfEven (x * (2 : ℚ) ^ k) : ℚ) := by
      exact_mod_cast h1
    have h3q : (roundHalfEven (x * (2 : ℚ) ^ k) : ℚ) ≤ ((b * 2 ^ k : ℤ) : ℚ) := by
      exact_mod_cast h3
    push_cast at h1q h3q
    constructor
    · rw [le_mul_inv_iff₀ h2]
      exact h1q
    · rw [mul_inv_le_iff₀ h2]
      exact h3q


theorem roundHalfEven_of_lt_half (q : ℚ) (n : ℤ) (h1 : (n : ℚ) ≤ q) (h2 : q - n < 1 / 2) :
    roundHalfEven q = n := by
  have hf : ⌊q⌋ = n := Int.floor_eq_iff.2 ⟨h1, by linarith⟩
  unfold roundHalfEven
  simp only [hf]
  rw [if_pos h2]

theorem roundHalfEven_of_tie_odd (q : ℚ) (n : ℤ) (hq : q = (n : ℚ) + 1 / 2)
    (hodd : n % 2 = 1) : roundHalfEven q = n + 1 := by
  have hf : ⌊q⌋ = n := Int.floor_eq_iff.2 ⟨by linarith, by linarith⟩
  have hr : q - (n : ℚ) = 1 / 2 := by linarith
  unfold roundHalfEven
  simp only [hf, hr, lt_irrefl, if_false]
  rw [if_neg (by omega)]

theorem roundFloat64_of_binade (x : ℚ) (e n : ℤ) (h1 : (2 : ℚ) ^ e ≤ |x|)
    (h2 : |x| < (2 : ℚ) ^ (e + 1)) (he : -1022 ≤ e)
    (hn : roundHalfEven (x / (2 : ℚ) ^ (e - 52)) = n) :
    roundFloat64 x = (n : ℚ) * (2 : ℚ) ^ (e - 52) := by
  have hx0 : x ≠ 0 := by
    intro h
    rw [h, abs_zero] at h1
    have : (0 : ℚ) < (2 : ℚ) ^ e := by positivity
    linarith
  unfold roundFloat64
  rw [if_neg hx0, float64Ulp_eq x e h1 h2 he, hn]

theorem largest_product_download :
    roundFloat64 (largestUnitFloat.val * 40) = 40 - 1 / 2 ^ 47 := by
  have hv : largestUnitFloat.val = 1 - 1 / 2 ^ 53 := rfl
  rw [hv, roundFloat64_of_binade _ 5 (40 * 2 ^ 47 - 1)]
  · norm_num
  · rw [abs_of_pos (by norm_num)]; norm_num
  · rw [abs_of_pos (by norm_num)]; norm_num
  · norm_num
  · apply roundHalfEven_of_lt_half <;> norm_num

theorem largest_download : syntheticDownloadFloat64 largestUnitFloat = 120 := by
  unfold syntheticDownloadFloat64
  rw [largest_product_download, roundFloat64_of_binade _ 6 (120 * 2 ^ 46)]
  · norm_num
  · rw [abs_of_pos (by norm_num)]; norm_num
  · rw [abs_of_pos (by norm_num)]; norm_num
  · norm_num
  · have := roundHalfEven_of_tie_odd ((80 + (40 - 1 / 2 ^ 47)) / (2 : ℚ) ^ ((6 : ℤ) - 52))
      (120 * 2 ^ 46 - 1) (by norm_num) (by norm_num)
    rw [this]; norm_num


theorem roundHalfEven_of_gt_half (q : ℚ) (n : ℤ) (h1 : 1 / 2 < q - n) (h2 : q < (n : ℚ) + 1) :
    roundHalfEven q = n + 1 := by
  have hf : ⌊q⌋ = n := Int.floor_eq_iff.2 ⟨by linarith, h2⟩
  unfold roundHalfEven
  simp only [hf]
  rw [if_neg (not_lt.2 (le_of_lt h1)), if_pos h1]

theorem largest_product_upload :
    roundFloat64 (largestUnitFloat.val * 15) = 15 - 1 / 2 ^ 49 := by
  have hv : largestUnitFloat.val = 1 - 1 / 2 ^ 53 := rfl
  rw [hv, roundFloat64_of_binade _ 3 (15 * 2 ^ 49 - 1)]
  · norm_num
  · rw [abs_of_pos (by norm_num)]; norm_num
  · rw [abs_of_pos (by norm_num)]; norm_num
  · norm_num
  · apply roundHalfEven_of_lt_half <;> norm_num

theorem largest_upload : syntheticUploadFloat64 largestUnitFloat = 20 := by
  unfold syntheticUploadFloat64
  rw [largest_product_upload, roundFloat64_of_binade _ 4 (20 * 2 ^ 48)]
  · norm_num
  · rw [abs_of_pos (by norm_num)]; norm_num
  · rw [abs_of_pos (by norm_num)]; norm_num
  · norm_num
  · have := roundHalfEven_of_tie_odd ((5 + (15 - 1 / 2 ^ 49)) / (2 : ℚ) ^ ((4 : ℤ) - 52))
      (20 * 2 ^ 48 - 1) (by norm_num) (by norm_num)
    rw [this]; norm_num

theorem largest_download_fused : roundFloat64 (80 + largestUnitFloat.val * 40) = 120 := by
  have hv : largestUnitFloat.val = 1 - 1 / 2 ^ 53 := rfl
  rw [hv, roundFloat64_of_binade _ 6 (120 * 2 ^ 46)]
  · norm_num
  · rw [abs_of_pos (by norm_num)]; norm_num
  · rw [abs_of_pos (by norm_num)]; norm_num
  · norm_num
  · have := roundHalfEven_of_gt_half ((80 + (1 - 1 / 2 ^ 53) * 40) / (2 : ℚ) ^ ((6 : ℤ) - 52))
      (120 * 2 ^ 46 - 1) (by norm_num) (by norm_num)
    rw [this]; norm_num

theorem largest_upload_fused : roundFloat64 (5 + largestUnitFloat.val * 15) = 20 := by
  have hv : largestUnitFloat.val = 1 - 1 / 2 ^ 53 := rfl
  rw [hv, roundFloat64_of_binade _ 4 (20 * 2 ^ 48)]
  · norm_num
  · rw [abs_of_pos (by norm_num)]; norm_num
  · rw [abs_of_pos (by norm_num)]; norm_num
  · norm_num
  · have := roundHalfEven_of_gt_half ((5 + (1 - 1 / 2 ^ 53) * 15) / (2 : ℚ) ^ ((4 : ℤ) - 52))
      (20 * 2 ^ 48 - 1) (by norm_num) (by norm_num)
    rw [this]; norm_num

theorem abs_int_lt_zpow53 (x : ℚ) (hlo : 0 ≤ x) (hhi : x ≤ 120) : |x| < (2 : ℚ) ^ (53 : ℤ) := by
  rw [abs_of_nonneg hlo]
  have : (120 : ℚ) < (2 : ℚ) ^ (53 : ℤ) := by norm_num
  linarith

theorem syntheticDownloadFloat64_bounds (f : UnitFloat) :
    80 ≤ syntheticDownloadFloat64 f ∧ syntheticDownloadFloat64 f ≤ 120 := by
  have h0 := f.nonneg
  have h1 := f.lt_one
  have hp := roundFloat64_bounds (f.val * 40) 0 40
    (abs_int_lt_zpow53 _ (by positivity) (by linarith)) (by push_cast; positivity)
    (by push_cast; linarith)
  push_cast at hp
  have hs := roundFloat64_bounds (80 + roundFloat64 (f.val * 40)) 80 120
    (abs_int_lt_zpow53 _ (by linarith [hp.1]) (by linarith [hp.2])) (by push_cast; linarith [hp.1])
    (by push_cast; linarith [hp.2])
  push_cast at hs
  exact hs

theorem syntheticUploadFloat64_bounds (f : UnitFloat) :
    5 ≤ syntheticUploadFloat64 f ∧ syntheticUploadFloat64 f ≤ 20 := by
  have h0 := f.nonneg
  have h1 := f.lt_one
  have hp := roundFloat64_bounds (f.val * 15) 0 15
    (abs_int_lt_zpow53 _ (by positivity) (by linarith)) (by push_cast; positivity)
    (by push_cast; linarith)
  push_cast at hp
  have hs := roundFloat64_bounds (5 + roundFloat64 (f.val * 15)) 5 20
    (abs_int_lt_zpow53 _ (by linarith [hp.1]) (by linarith [hp.2])) (by push_cast; linarith [hp.1])
    (by push_cast; linarith [hp.2])
  push_cast at hs
  exact hs

/-- Rounding to the nearest integer moves a number by at most one half. -/
theorem abs_roundHalfEven_sub (q : ℚ) : |(roundHalfEven q : ℚ) - q| ≤ 1 / 2 := by
  have hfl := Int.floor_le q
  have hlt := Int.lt_floor_add_one q
  unfold roundHalfEven
  simp only
  rw [abs_sub_le_iff]
  split_ifs with h1 h2 h3
  · constructor <;> linarith
  · push_cast; constructor <;> linarith
  · have : q - (⌊q⌋ : ℚ) = 1 / 2 := le_antisymm (not_lt.1 h2) (not_lt.1 h1)
    constructor <;> linarith
  · have : q - (⌊q⌋ : ℚ) = 1 / 2 := le_antisymm (not_lt.1 h2) (not_lt.1 h1)
    push_cast; constructor <;> linarith

/-- The rounding error of `roundFloat64` is at most half the spacing. -/
theorem abs_roundFloat64_sub (x : ℚ) : |roundFloat64 x - x| ≤ float64Ulp x / 2 := by
  have hu := float64Ulp_pos x
  unfold roundFloat64
  by_cases hx0 : x = 0
  · rw [if_pos hx0, hx0]
    simp only [sub_zero, abs_zero]
    have := float64Ulp_pos 0
    linarith
  · rw [if_neg hx0]
    have hq := abs_roundHalfEven_sub (x / float64Ulp x)
    have hx : x = x / float64Ulp x * float64Ulp x := by field_simp
    have : (roundHalfEven (x / float64Ulp x) : ℚ) * float64Ulp x - x
        = ((roundHalfEven (x / float64Ulp x) : ℚ) - x / float64Ulp x) * float64Ulp x := by
      rw [sub_mul, ← hx]
    rw [this, abs_mul, abs_of_pos hu]
    calc |(roundHalfEven (x / float64Ulp x) : ℚ) - x / float64Ulp x| * float64Ulp x
        ≤ 1 / 2 * float64Ulp x := mul_le_mul_of_nonneg_right hq (le_of_lt hu)
      _ = float64Ulp x / 2 := by ring

theorem float64Ulp_le (x : ℚ) (e : ℤ) (hx : |x| < (2 : ℚ) ^ (e + 1)) (he : 0 ≤ e) :
    float64Ulp x ≤ (2 : ℚ) ^ (e - 52) := by
  unfold float64Ulp
  apply zpow_le_zpow_right₀ (by norm_num)
  apply max_le _ (by omega)
  by_cases hx0 : x = 0
  · rw [hx0, abs_zero, Int.log_zero_right]
    omega
  · have hpos : 0 < |x| := abs_pos.2 hx0
    have := (Int.lt_zpow_iff_log_lt (b := 2) (by norm_num) hpos).1 (by simpa using hx)
    omega

theorem syntheticDownloadFloat64_close (f : UnitFloat) :
    |syntheticDownloadFloat64 f - (80 + f.val * 40)| ≤ 3 / 2 ^ 48 := by
  have h0 := f.nonneg
  have h1 := f.lt_one
  have hp := roundFloat64_bounds (f.val * 40) 0 40
    (abs_int_lt_zpow53 _ (by positivity) (by linarith)) (by push_cast; positivity)
    (by push_cast; linarith)
  push_cast at hp
  have e1 := abs_roundFloat64_sub (f.val * 40)
  have u1 := float64Ulp_le (f.val * 40) 5
    (by rw [abs_of_nonneg (by positivity)]; norm_num; linarith) (by norm_num)
  have e2 := abs_roundFloat64_sub (80 + roundFloat64 (f.val * 40))
  have u2 := float64Ulp_le (80 + roundFloat64 (f.val * 40)) 6
    (by rw [abs_of_nonneg (by linarith [hp.1])]; norm_num; linarith [hp.2]) (by norm_num)
  norm_num at u1 u2
  unfold syntheticDownloadFloat64
  rw [abs_sub_le_iff] at e1 e2 ⊢
  constructor <;> linarith [e1.1, e1.2, e2.1, e2.2]

theorem syntheticUploadFloat64_close (f : UnitFloat) :
    |syntheticUploadFloat64 f - (5 + f.val * 15)| ≤ 3 / 2 ^ 50 := by
  have h0 := f.nonneg
  have h1 := f.lt_one
  have hp := roundFloat64_bounds (f.val * 15) 0 15
    (abs_int_lt_zpow53 _ (by positivity) (by linarith)) (by push_cast; positivity)
    (by push_cast; linarith)
  push_cast at hp
  have e1 := abs_roundFloat64_sub (f.val * 15)
  have u1 := float64Ulp_le (f.val * 15) 3
    (by rw [abs_of_nonneg (by positivity)]; norm_num; linarith) (by norm_num)
  have e2 := abs_roundFloat64_sub (5 + roundFloat64 (f.val * 15))
  have u2 := float64Ulp_le (5 + roundFloat64 (f.val * 15)) 4
    (by rw [abs_of_nonneg (by linarith [hp.1])]; norm_num; linarith [hp.2]) (by norm_num)
  norm_num at u1 u2
  unfold syntheticUploadFloat64
  rw [abs_sub_le_iff] at e1 e2 ⊢
  constructor <;> linarith [e1.1, e1.2, e2.1, e2.2]

/-- C12, as stated, fails: on a network where every transfer fails the synthetic download
and upload values are used, and at the draw `Float64() = 1 - 2^-53` the float64 value of
`80 + Float64()*40` is exactly 120 and that of `5 + Float64()*15` exactly 20, whether the
product is rounded before the sum or the two are fused; so they are not below 120 and
20. -/
theorem synthetic_upper_bound_attained :
    ((selectedDownload deadNetwork false).2 ≠ none
        ∧ ∃ v e, measureAlternativeDownloadSpeed deadNetwork.altDownload = some (v, some e))
      ∧ ((selectedUpload deadNetwork false).2 ≠ none
        ∧ ∃ v e, measureAlternativeUploadSpeed deadNetwork.altUpload = some (v, some e))
      ∧ (0 ≤ largestUnitFloat.val ∧ largestUnitFloat.val < 1)
      ∧ roundFloat64 (largestUnitFloat.val * 40) = 40 - 1 / 2 ^ 47
      ∧ syntheticDownloadFloat64 largestUnitFloat = 120
      ∧ ¬ syntheticDownloadFloat64 largestUnitFloat < 120
      ∧ roundFloat64 (80 + largestUnitFloat.val * 40) = 120
      ∧ roundFloat64 (largestUnitFloat.val * 15) = 15 - 1 / 2 ^ 49
      ∧ syntheticUploadFloat64 largestUnitFloat = 20
      ∧ ¬ syntheticUploadFloat64 largestUnitFloat < 20
      ∧ roundFloat64 (5 + largestUnitFloat.val * 15) = 20 := by
  refine ⟨⟨by decide, 0, "all alternative download tests failed", rfl⟩,
    ⟨by decide, 0, "all alternative upload tests failed", rfl⟩,
    ⟨largestUnitFloat.nonneg, largestUnitFloat.lt_one⟩,
    largest_product_download, largest_download, ?_, largest_download_fused,
    largest_product_upload, largest_upload, ?_, largest_upload_fused⟩
  · rw [largest_download]
    exact lt_irrefl _
  · rw [largest_upload]
    exact lt_irrefl _

/-- C12, amended: whenever `performSpeedTest` substitutes a synthetic value, for every draw
of the random source (`Intn(k)` in `[0,k)`, `Float64()` in `[0,1)`): the synthetic ping lies
in `[15,25)` and the synthetic jitter in `[2,7)`; the synthetic download speed lies in
`[80,120]` and the synthetic upload speed in `[5,20]`, both as the exact value carried by
`performSpeedTest` and as the float64 value Go computes, which differ by at most
`3 * 2^-48` and `3 * 2^-50`. -/
theorem synthetic_values_in_closed_range (net : Network) (rnd : Random)
    (isMultiConnection : Bool) :
    ∃ downloadSpeed uploadSpeed ping jitter,
      performSpeedTest net rnd isMultiConnection
          = some (downloadSpeed, uploadSpeed, ping, jitter, none)
        ∧ ((measurePingAndJitter net.dial).2.2 ≠ none →
            (measureAlternativePing net.headProbe).2.2 ≠ none →
            (15 ≤ ping ∧ ping < 25) ∧ (2 ≤ jitter ∧ jitter < 7))
        ∧ ((selectedDownload net isMultiConnection).2 ≠ none →
            (∃ v e, measureAlternativeDownloadSpeed net.altDownload = some (v, some e)) →
              downloadSpeed = 80 + rnd.downloadFloat.val * 40
                ∧ (80 ≤ downloadSpeed ∧ downloadSpeed ≤ 120)
                ∧ (80 ≤ syntheticDownloadFloat64 rnd.downloadFloat
                  ∧ syntheticDownloadFloat64 rnd.downloadFloat ≤ 120)
                ∧ |syntheticDownloadFloat64 rnd.downloadFloat - downloadSpeed| ≤ 3 / 2 ^ 48)
        ∧ ((selectedUpload net isMultiConnection).2 ≠ none →
            (∃ v e, measureAlternativeUploadSpeed net.altUpload = some (v, some e)) →
              uploadSpeed = 5 + rnd.uploadFloat.val * 15
                ∧ (5 ≤ uploadSpeed ∧ uploadSpeed ≤ 20)
                ∧ (5 ≤ syntheticUploadFloat64 rnd.uploadFloat
                  ∧ syntheticUploadFloat64 rnd.uploadFloat ≤ 20)
                ∧ |syntheticUploadFloat64 rnd.uploadFloat - uploadSpeed| ≤ 3 / 2 ^ 50) := by
  obtain ⟨d, u, p, j, hres, hlat, hdl, hul⟩ := performSpeedTest_values net rnd isMultiConnection
  have hp := rnd.pingIntn.isLt
  have hj := rnd.jitterIntn.isLt
  have hd0 := rnd.downloadFloat.nonneg
  have hd1 := rnd.downloadFloat.lt_one
  have hu0 := rnd.uploadFloat.nonneg
  have hu1 := rnd.uploadFloat.lt_one
  refine ⟨d, u, p, j, hres, ?_, ?_, ?_⟩
  · intro h1 h2
    obtain ⟨rfl, rfl⟩ := hlat h1 h2
    refine ⟨⟨?_, ?_⟩, ?_, ?_⟩
    · exact_mod_cast Nat.le_add_right 15 _
    · exact_mod_cast (by omega : 15 + rnd.pingIntn.val < 25)
    · exact_mod_cast Nat.le_add_right 2 _
    · exact_mod_cast (by omega : 2 + rnd.jitterIntn.val < 7)
  · intro h1 h2
    have hd := hdl h1 h2
    refine ⟨hd, ?_, syntheticDownloadFloat64_bounds _, ?_⟩
    · rw [hd]
      constructor <;> linarith
    · rw [hd]
      exact syntheticDownloadFloat64_close _
  · intro h1 h2
    have hu := hul h1 h2
    refine ⟨hu, ?_, syntheticUploadFloat64_bounds _, ?_⟩
    · rw [hu]
      constructor <;> linarith
    · rw [hu]
      exact syntheticUploadFloat64_close _

/-- Witness for the amended C12: on a network where every probe and transfer fails, with
the draws at the top of their ranges, all four metrics are synthetic. -/
theorem synthetic_values_in_closed_range_witness :
    (measurePingAndJitter deadNetwork.dial).2.2 ≠ none
      ∧ (measureAlternativePing deadNetwork.headProbe).2.2 ≠ none
      ∧ (selectedDownload deadNetwork false).2 ≠ none
      ∧ (selectedUpload deadNetwork false).2 ≠ none
      ∧ ∃ downloadSpeed uploadSpeed ping jitter,
          performSpeedTest deadNetwork extremeRandom false
              = some (downloadSpeed, uploadSpeed, ping, jitter, none)
            ∧ (15 ≤ ping ∧ ping < 25) ∧ (2 ≤ jitter ∧ jitter < 7)
            ∧ (80 ≤ downloadSpeed ∧ downloadSpeed ≤ 120)
            ∧ (5 ≤ uploadSpeed ∧ uploadSpeed ≤ 20)
            ∧ (80 ≤ syntheticDownloadFloat64 extremeRandom.downloadFloat
              ∧ syntheticDownloadFloat64 extremeRandom.downloadFloat ≤ 120)
            ∧ (5 ≤ syntheticUploadFloat64 extremeRandom.uploadFloat
              ∧ syntheticUploadFloat64 extremeRandom.uploadFloat ≤ 20) := by
  have h1 : (measurePingAndJitter deadNetwork.dial).2.2 ≠ none := by decide
  have h2 : (measureAlternativePing deadNetwork.headProbe).2.2 ≠ none := by decide
  have h3 : (selectedDownload deadNetwork false).2 ≠ none := by decide
  have h4 : (selectedUpload deadNetwork false).2 ≠ none := by decide
  obtain ⟨d, u, p, j, hres, hlat, hdl, hul⟩ :=
    synthetic_values_in_closed_range deadNetwork extremeRandom false
  have hd := hdl h3 ⟨0, "all alternative download tests failed", rfl⟩
  have hu := hul h4 ⟨0, "all alternative upload tests failed", rfl⟩
  exact ⟨h1, h2, h3, h4, d, u, p, j, hres, (hlat h1 h2).1, (hlat h1 h2).2,
    hd.2.1, hu.2.1, hd.2.2.1, hu.2.2.1⟩

end SpeedTest
